import Mathlib

/-!
Shallow embedding of `insightsworkbook.py` (class `InsightsWorkbook`).

The Python module manipulates the JSON document backing an ArcGIS Insights
workbook item. We embed JSON values as an inductive type, Python dicts as
insertion-ordered association lists, and each public method of the class as a
pure Lean function. HTTP calls are modelled by passing the server response in
as an argument and by returning the list of requests the method issues, in
order. Python exceptions are modelled with `Except`; the error value carries
the (possibly partially mutated) workbook state at the time of the raise.
-/

set_option autoImplicit false

namespace InsightsWB

/-- JSON values, mirroring what `json.loads`/`json.dumps` handle: null,
booleans, integers, strings, arrays, and insertion-ordered objects. -/
inductive JValue where
  | null : JValue
  | bool (b : Bool) : JValue
  | num (n : Int) : JValue
  | str (s : String) : JValue
  | arr (xs : List JValue) : JValue
  | obj (fields : List (String × JValue)) : JValue
deriving Repr

mutual

/-- Decidable equality for `JValue` (the deriving handler does not support
this nested inductive, so it is spelled out). -/
def JValue.decEq : (a b : JValue) → Decidable (a = b)
  | .null, .null => isTrue rfl
  | .bool a, .bool b =>
      if h : a = b then isTrue (by rw [h])
      else isFalse (by intro hh; cases hh; exact h rfl)
  | .num a, .num b =>
      if h : a = b then isTrue (by rw [h])
      else isFalse (by intro hh; cases hh; exact h rfl)
  | .str a, .str b =>
      if h : a = b then isTrue (by rw [h])
      else isFalse (by intro hh; cases hh; exact h rfl)
  | .arr xs, .arr ys =>
      match JValue.decEqList xs ys with
      | isTrue h => isTrue (by rw [h])
      | isFalse h => isFalse (by intro hh; cases hh; exact h rfl)
  | .obj fs, .obj gs =>
      match JValue.decEqObj fs gs with
      | isTrue h => isTrue (by rw [h])
      | isFalse h => isFalse (by intro hh; cases hh; exact h rfl)
  | .null, .bool _ => isFalse (by intro h; cases h)
  | .null, .num _ => isFalse (by intro h; cases h)
  | .null, .str _ => isFalse (by intro h; cases h)
  | .null, .arr _ => isFalse (by intro h; cases h)
  | .null, .obj _ => isFalse (by intro h; cases h)
  | .bool _, .null => isFalse (by intro h; cases h)
  | .bool _, .num _ => isFalse (by intro h; cases h)
  | .bool _, .str _ => isFalse (by intro h; cases h)
  | .bool _, .arr _ => isFalse (by intro h; cases h)
  | .bool _, .obj _ => isFalse (by intro h; cases h)
  | .num _, .null => isFalse (by intro h; cases h)
  | .num _, .bool _ => isFalse (by intro h; cases h)
  | .num _, .str _ => isFalse (by intro h; cases h)
  | .num _, .arr _ => isFalse (by intro h; cases h)
  | .num _, .obj _ => isFalse (by intro h; cases h)
  | .str _, .null => isFalse (by intro h; cases h)
  | .str _, .bool _ => isFalse (by intro h; cases h)
  | .str _, .num _ => isFalse (by intro h; cases h)
  | .str _, .arr _ => isFalse (by intro h; cases h)
  | .str _, .obj _ => isFalse (by intro h; cases h)
  | .arr _, .null => isFalse (by intro h; cases h)
  | .arr _, .bool _ => isFalse (by intro h; cases h)
  | .arr _, .num _ => isFalse (by intro h; cases h)
  | .arr _, .str _ => isFalse (by intro h; cases h)
  | .arr _, .obj _ => isFalse (by intro h; cases h)
  | .obj _, .null => isFalse (by intro h; cases h)
  | .obj _, .bool _ => isFalse (by intro h; cases h)
  | .obj _, .num _ => isFalse (by intro h; cases h)
  | .obj _, .str _ => isFalse (by intro h; cases h)
  | .obj _, .arr _ => isFalse (by intro h; cases h)

/-- Decidable equality for lists of `JValue`. -/
def JValue.decEqList : (xs ys : List JValue) → Decidable (xs = ys)
  | [], [] => isTrue rfl
  | [], _ :: _ => isFalse (by intro h; cases h)
  | _ :: _, [] => isFalse (by intro h; cases h)
  | x :: xs, y :: ys =>
      match JValue.decEq x y with
      | isFalse h => isFalse (by intro hh; cases hh; exact h rfl)
      | isTrue h1 =>
        match JValue.decEqList xs ys with
        | isTrue h2 => isTrue (by rw [h1, h2])
        | isFalse h => isFalse (by intro hh; cases hh; exact h rfl)

/-- Decidable equality for object field lists. -/
def JValue.decEqObj : (xs ys : List (String × JValue)) → Decidable (xs = ys)
  | [], [] => isTrue rfl
  | [], _ :: _ => isFalse (by intro h; cases h)
  | _ :: _, [] => isFalse (by intro h; cases h)
  | (k, v) :: xs, (k2, v2) :: ys =>
      if hk : k = k2 then
        match JValue.decEq v v2 with
        | isFalse h => isFalse (by intro hh; cases hh; exact h rfl)
        | isTrue hv =>
          match JValue.decEqObj xs ys with
          | isTrue ht => isTrue (by rw [hk, hv, ht])
          | isFalse h => isFalse (by intro hh; cases hh; exact h rfl)
      else isFalse (by intro hh; cases hh; exact hk rfl)

end

instance : DecidableEq JValue := JValue.decEq

/-- Python `d[k] = v` on an insertion-ordered dict: replace in place when the
key exists, otherwise append at the end. -/
def setAssoc : List (String × JValue) → String → JValue → List (String × JValue)
  | [], k, v => [(k, v)]
  | (k', v') :: rest, k, v =>
      if k' = k then (k, v) :: rest else (k', v') :: setAssoc rest k v

/-- Python `d[k]` read on a JSON value: `some` when the value is an object
holding the key; `none` models the KeyError (missing key) or TypeError
(subscripting a non-dict) that Python raises. -/
def JValue.getKey : JValue → String → Option JValue
  | .obj fs, k => (fs.find? (fun p => p.1 = k)).map (·.2)
  | _, _ => none

/-- Python `d[k] = v` on a JSON value assumed to be an object (unchanged
otherwise; only used where the object shape is already established). -/
def JValue.setKey : JValue → String → JValue → JValue
  | .obj fs, k, v => .obj (setAssoc fs k v)
  | w, _, _ => w

/-- Python `d[k] = v` that signals TypeError on a non-dict. -/
def JValue.trySetKey : JValue → String → JValue → Option JValue
  | .obj fs, k, v => some (.obj (setAssoc fs k v))
  | _, _, _ => none

/-- Python truthiness of a JSON value (`if layer_dataset:`). -/
def JValue.truthy : JValue → Bool
  | .null => false
  | .bool b => b
  | .num n => n != 0
  | .str s => s != ""
  | .arr xs => !xs.isEmpty
  | .obj fs => !fs.isEmpty

/-- Keys of a JSON object (empty for non-objects). -/
def JValue.keys : JValue → List String
  | .obj fs => fs.map (·.1)
  | _ => []

/-- Minimal JSON string escaping (backslash and double quote), as
`json.dumps` performs on the strings appearing in this module. -/
def jsonEscape (s : String) : String :=
  ⟨s.data.foldr
    (fun c acc =>
      if c = '"' then '\\' :: '"' :: acc
      else if c = '\\' then '\\' :: '\\' :: acc
      else c :: acc) []⟩

/-- `json.dumps` with its default separators. -/
def JValue.dumps : JValue → String
  | .null => "null"
  | .bool b => if b then "true" else "false"
  | .num n => toString n
  | .str s => "\"" ++ jsonEscape s ++ "\""
  | .arr xs =>
      "[" ++ String.intercalate ", " (xs.attach.map (fun x => JValue.dumps x.1)) ++ "]"
  | .obj fs =>
      "\x7b" ++ String.intercalate ", "
        (fs.attach.map (fun f =>
          "\"" ++ jsonEscape f.1.1 ++ "\": " ++ JValue.dumps f.1.2)) ++ "\x7d"
decreasing_by
  all_goals simp_wf
  · have := List.sizeOf_lt_of_mem x.2
    omega
  · obtain ⟨⟨k, v⟩, hf⟩ := f
    have := List.sizeOf_lt_of_mem hf
    simp only [Prod.mk.sizeOf_spec] at this ⊢
    omega

/-- Index of the first occurrence of `needle` in `hay`, if any. -/
def firstOccur (needle : List Char) : List Char → Option Nat
  | [] => if needle = [] then some 0 else none
  | c :: rest =>
      if needle.isPrefixOf (c :: rest) then some 0
      else (firstOccur needle rest).map (· + 1)

/-- Python `s.find(sub)`: index of the first occurrence, `-1` when absent. -/
def pyFind (s sub : String) : Int :=
  match firstOccur sub.data s.data with
  | some n => (n : Int)
  | none => -1

/-- Python slice `s[:k]`, including the negative-index convention. -/
def pySliceTo (s : String) (k : Int) : String :=
  let stop : Int := if k < 0 then (s.data.length : Int) + k else k
  ⟨s.data.take (max stop 0).toNat⟩

/-- Python `str.title()` over ASCII: uppercase a letter that follows a
non-letter, lowercase the rest. -/
def pyTitleAux : List Char → Bool → List Char
  | [], _ => []
  | c :: rest, prevAlpha =>
      (if prevAlpha then c.toLower else c.toUpper) :: pyTitleAux rest c.isAlpha

/-- Python `str.title()`. -/
def pyTitle (s : String) : String := ⟨pyTitleAux s.data false⟩

/-- Python `str.lower()` over ASCII, implemented on the character list so
that it evaluates by kernel reduction. -/
def pyLower (s : String) : String := ⟨s.data.map Char.toLower⟩

/-- Lowercase hexadecimal digit for `n < 16`. -/
def hexChar (n : Nat) : Char :=
  if n < 10 then Char.ofNat (48 + n) else Char.ofNat (87 + n)

/-- Hexadecimal digits with an explicit fuel (structural recursion, so that
the kernel can evaluate it); `fuel ≥ n` is enough. -/
def natToHexAux : Nat → Nat → List Char
  | 0, _ => []
  | _ + 1, 0 => []
  | fuel + 1, n + 1 => natToHexAux fuel ((n + 1) / 16) ++ [hexChar ((n + 1) % 16)]

/-- Hexadecimal digits of `n` (empty for 0), most significant first. -/
def natToHex (n : Nat) : List Char := natToHexAux n n

/-- Python `'%0wx' % n`: lowercase hex, left-padded with zeros to `w`. -/
def formatHex (w : Nat) (n : Nat) : String :=
  let ds := if n = 0 then ['0'] else natToHex n
  ⟨List.replicate (w - ds.length) '0' ++ ds⟩

/-- An HTTP request issued by the class. `post`/`get` carry the URL and the
form-encoded body. `updateItem` models the call to the ArcGIS API for Python
helper `gis._portal.update_item(id, item_props, data)` (that library is not
part of this repository; per the spec it targets the item update endpoint). -/
inductive Request where
  | post (url : String) (body : List (String × String)) : Request
  | get (url : String) (body : List (String × String)) : Request
  | updateItem (itemId : String) (itemProps : JValue) (text : String) : Request
deriving DecidableEq, Repr

/-- Failure of an HTTP call, as injected by the environment: `httpError` is
`urllib.error.HTTPError`, `otherError` any other exception the call raises. -/
inductive PostErr where
  | httpError : PostErr
  | otherError : PostErr
deriving DecidableEq, Repr

/-- A Python exception as observed by the caller of a method. `generic` is a
bare `Exception()`, reached only by the two handlers that print a plain
string before raising (layer-not-found in `update_dataset`, falsy dataset in
`add_map`); `lookup` stands for KeyError / TypeError / IndexError /
AttributeError raised by subscripting or attribute access and not caught;
`typeError` is the TypeError that every handler evaluating
`print("..." + sys.exc_info()[0])` raises itself — concatenating a str with
the exception class fails, so those handlers crash before printing or
reaching their `raise Exception()`; `httpOther` is a non-`HTTPError`
exception escaping the one handler that catches only `HTTPError`. -/
inductive PyErr where
  | generic : PyErr
  | lookup : PyErr
  | typeError : PyErr
  | httpOther : PyErr
deriving DecidableEq, Repr

/-- The fields of the `gis` connection object that the class reads. -/
structure Gis where
  url : String        -- gis._url
  portalUrl : String  -- gis._portal.url
  portalId : String   -- gis._portal._properties['id']
  username : String   -- gis.users.me.username
deriving DecidableEq, Repr

/-- The fields of a feature-layer item that the class reads; `layers` holds,
per sublayer, the JSON extent that
`json.loads(lyr.layers[i].properties.extent.__repr__())` yields. -/
structure Layer where
  title : String
  url : String
  id : String
  layers : List JValue
deriving DecidableEq, Repr

/-- The state of an `InsightsWorkbook` instance. -/
structure Workbook where
  gis : Gis
  title : String
  workbookID : String
  workspaceID : String
  workspaceURL : String
  props : JValue
deriving DecidableEq, Repr

/-- One step of a subscript chain such as `props['pages'][0]`. -/
inductive PStep where
  | key (k : String) : PStep
  | idx (i : Nat) : PStep
deriving DecidableEq, Repr

/-- Read a subscript chain; `none` models the KeyError / IndexError /
TypeError Python raises when a step does not apply. -/
def getPath : JValue → List PStep → Option JValue
  | v, [] => some v
  | .obj fs, .key k :: rest =>
      match (fs.find? (fun p => p.1 = k)).map (·.2) with
      | some v => getPath v rest
      | none => none
  | .arr xs, .idx i :: rest =>
      match xs.get? i with
      | some v => getPath v rest
      | none => none
  | _, _ :: _ => none

/-- Apply `f` to the value at the end of a subscript chain, rebuilding the
document; `none` models the exception Python raises when a step does not
apply or when `f` itself does not apply. -/
def modifyPath : JValue → List PStep → (JValue → Option JValue) → Option JValue
  | v, [], f => f v
  | .obj fs, .key k :: rest, f =>
      match (fs.find? (fun p => p.1 = k)).map (·.2) with
      | some v => (modifyPath v rest f).map (fun v' => .obj (setAssoc fs k v'))
      | none => none
  | .arr xs, .idx i :: rest, f =>
      match xs.get? i with
      | some v => (modifyPath v rest f).map (fun v' => .arr (xs.set i v'))
      | none => none
  | _, _ :: _, _ => none

/-- Python `lst.append(item)` on the list at the end of a subscript chain. -/
def appendAt (v : JValue) (path : List PStep) (item : JValue) : Option JValue :=
  modifyPath v path (fun x =>
    match x with
    | .arr xs => some (.arr (xs ++ [item]))
    | _ => none)

/-- Python `d[k] = item` on the dict at the end of a subscript chain. -/
def setKeyAt (v : JValue) (path : List PStep) (k : String) (item : JValue) :
    Option JValue :=
  modifyPath v path (fun x =>
    match x with
    | .obj fs => some (.obj (setAssoc fs k item))
    | _ => none)

/-- A blanket `except:` whose handler is
`print("..." + sys.exc_info()[0]); raise Exception()`: the print itself
raises TypeError (str + class), so whatever was caught, the caller sees an
uncaught TypeError — the message is never printed and the bare `Exception()`
is never reached. The state at the raise is kept. -/
def blanket {α : Type} : Except (PyErr × Workbook) α → Except (PyErr × Workbook) α
  | .ok a => .ok a
  | .error (_, wb) => .error (.typeError, wb)

/-- `gis._url.find('arcgis.com') >= 0`, the AGOL-versus-Portal test. -/
def agolTest (g : Gis) : Bool := decide (0 ≤ pyFind g.url "arcgis.com")

/-- The hosted workspace-service base URL, which differs between Portal and
ArcGIS Online (lines 92-98 and 219-225 of the source). -/
def insightsServiceUrl (g : Gis) : String :=
  if agolTest g then
    "https://insightsservices.arcgis.com/" ++ g.portalId ++ "/arcgis/rest/services/"
  else
    pyLower g.url ++ "/arcgis/rest/services/Hosted/"

/-- The full set of default JSON data properties `new` installs (lines
131-186 of the source). -/
def defaultProps (title : String) : JValue :=
  .obj [
    ("format", .num 9),
    ("title", .str title),
    ("pages", .arr [.obj [
      ("title", .str "Page 1"),
      ("model", .obj [("items", .arr [])]),
      ("cards", .arr []),
      ("layout", .arr []),
      ("contents", .arr [])]]),
    ("activePage", .num 0),
    ("workspace", .obj [("datasets", .obj [])]),
    ("_ssl", .bool true),
    ("created", .num 0),
    ("modified", .num 0),
    ("guid", .null),
    ("type", .str "Insights Workbook"),
    ("typeKeywords", .arr [.str "Application", .str "ArcGIS",
      .str "Insights Workbook", .str "Hosted Service"]),
    ("description", .null),
    ("tags", .arr []),
    ("snippet", .null),
    ("thumbnail", .null),
    ("documentation", .null),
    ("extent", .arr []),
    ("categories", .arr []),
    ("spatialReference", .null),
    ("accessInformation", .null),
    ("licenseInfo", .null),
    ("culture", .str "english (united states)"),
    ("properties", .null),
    ("proxyFilter", .null),
    ("access", .str "private"),
    ("size", .num 0),
    ("appCategories", .arr []),
    ("industries", .arr []),
    ("languages", .arr []),
    ("largeThumbnail", .null),
    ("banner", .null),
    ("screenshots", .arr []),
    ("listed", .bool false),
    ("ownerFolder", .null),
    ("protected", .bool false),
    ("commentsEnabled", .bool true),
    ("numComments", .num 0),
    ("numRatings", .num 0),
    ("avgRating", .num 0),
    ("numViews", .num 3),
    ("itemControl", .str "admin"),
    ("scoreCompleteness", .num 0),
    ("groupDesignations", .null)]

/-- `InsightsWorkbook.new(gis, title)`. `r` is the value
`random.randrange(16**8)` returned; `resp1` is the outcome of the
`createService` POST and `resp2` the outcome of the `update_item` call.
Returns the requests issued, in order, and the outcome. The response id
(`itemId` on Portal, `serviceItemId` on AGOL) is taken to be a JSON string,
as the server returns it. -/
def new (g : Gis) (title : String) (r : Nat)
    (resp1 : Except PostErr JValue) (resp2 : Except PostErr Unit) :
    List Request × Except PyErr Workbook :=
  let workbook_id := formatHex 8 r
  let workspace_url := insightsServiceUrl g ++ workbook_id ++ "/WorkspaceServer"
  let path := g.portalUrl ++ "/sharing/rest/content/users/" ++
    g.username ++ "/createService"
  let post_data := [("f", "json"),
    ("createParameters", "\x7b\"name\": \"" ++ workbook_id ++ "\"\x7d"),
    ("targetType", "workspaceService")]
  let req1 := Request.post path post_data
  match resp1 with
  | .error _ => ([req1], .error .typeError)
  | .ok v =>
    match (if agolTest g then v.getKey "serviceItemId" else v.getKey "itemId") with
    | some (.str workspace_id) =>
      let item_props := JValue.obj
        ([("f", .str "json"),
          ("id", .str workspace_id),
          ("type", .str "Insights Workbook"),
          ("title", .str title)] ++
         (if agolTest g then [("url", .str workspace_url)] else []))
      let props := defaultProps title
      let req2 := Request.updateItem workspace_id item_props (JValue.dumps props)
      match resp2 with
      | .error _ => ([req1, req2], .error .typeError)
      | .ok _ =>
          ([req1, req2], .ok ⟨g, title, workbook_id, workspace_id, workspace_url, props⟩)
    | _ => ([req1], .error .typeError)

/-- `InsightsWorkbook.open(existing_workbook)` (named `openWorkbook` here
because `open` is a Lean keyword). `itemTitle`, `itemName`, `itemId` are the
`title`, `name`, `id` fields of the passed item; `resp` is the outcome of the
GET for the item data. -/
def openWorkbook (g : Gis) (itemTitle itemName itemId : String)
    (resp : Except PostErr JValue) : List Request × Except PyErr Workbook :=
  let workspace_url := insightsServiceUrl g ++ itemName ++ "/WorkspaceServer"
  let path := pyLower g.url ++ "/sharing/rest/content/items/" ++ itemId ++ "/data"
  let req := Request.get path [("f", "json")]
  match resp with
  | .error _ => ([req], .error .typeError)
  | .ok props => ([req], .ok ⟨g, itemTitle, itemName, itemId, workspace_url, props⟩)

/-- The `tools` form field both `add_feature_layer` and `update_dataset` POST
to the `/execute` endpoint. -/
def toolsField (url dataset_name : String) : String :=
  "[\x7b\"name\":\"add-data\",\"params\":\x7b\"data\":\x7b" ++
  "\"type\":\"feature-layer\"," ++
  "\"url\":\"" ++ url ++ "\"\x7d\x7d,\"outDataset\":\"" ++ dataset_name ++ "\"\x7d]"

/-- The form body both `add_feature_layer` and `update_dataset` POST. -/
def executeBody (url dataset_name : String) : List (String × String) :=
  [("f", "json"),
   ("tools", toolsField url dataset_name),
   ("outDatasets", "[\"" ++ dataset_name ++ "\"]")]

/-- The model item `add_feature_layer` appends (lines 272-281). -/
def addDataModelItem (url dataset_name : String) : JValue :=
  .obj [("operation", .str "add-data"),
        ("params", .obj [("data", .obj [
          ("type", .str "feature-layer"),
          ("url", .str url)])]),
        ("outDataset", .str dataset_name)]

/-- The workspace entry `add_feature_layer` and `update_dataset` store for a
feature layer (lines 286-296 and 345-355). -/
def featureEntry (dataVal : JValue) (lyrId : String) (extent : JValue) : JValue :=
  .obj [("data", dataVal),
        ("owner", .str lyrId),
        ("fields", .obj [("shape", .obj [("alias", .str "Location")])]),
        ("extent", extent),
        ("origin", .bool true)]

/-- Body of `add_feature_layer` after the POST request has been formed:
everything inside the `try` block. -/
def addFeatureLayerBody (wb : Workbook) (lyr : Layer) (sublayer : Nat)
    (dataset_name : String) (resp : Except PostErr JValue) :
    Except (PyErr × Workbook) (String × Workbook) :=
  match resp with
  | .error _ => .error (.lookup, wb)
  | .ok respv =>
    match appendAt wb.props [.key "pages", .idx 0, .key "model", .key "items"]
        (addDataModelItem (lyr.url ++ "/" ++ toString sublayer) dataset_name) with
    | none => .error (.lookup, wb)
    | some p1 =>
      match appendAt p1 [.key "pages", .idx 0, .key "contents"]
          (.obj [("dataset", .str dataset_name)]) with
      | none => .error (.lookup, { wb with props := p1 })
      | some p2 =>
        match lyr.layers.get? sublayer with
        | none => .error (.lookup, { wb with props := p2 })
        | some my_extent =>
          match respv.getKey dataset_name with
          | none => .error (.lookup, { wb with props := p2 })
          | some dataVal =>
            match setKeyAt p2 [.key "workspace", .key "datasets"] dataset_name
                (featureEntry dataVal lyr.id my_extent) with
            | none => .error (.lookup, { wb with props := p2 })
            | some p3 => .ok (dataset_name, { wb with props := p3 })

/-- `InsightsWorkbook.add_feature_layer(lyr, sublayer)`. `r` is the value of
`random.randrange(16**7)`; `resp` is the outcome of the `/execute` POST. -/
def add_feature_layer (wb : Workbook) (lyr : Layer) (sublayer : Nat) (r : Nat)
    (resp : Except PostErr JValue) :
    List Request × Except (PyErr × Workbook) (String × Workbook) :=
  let dataset_name := lyr.title ++ "_" ++ formatHex 7 r
  let req := Request.post (wb.workspaceURL ++ "/execute")
    (executeBody (lyr.url ++ "/" ++ toString sublayer) dataset_name)
  ([req], blanket (addFeatureLayerBody wb lyr sublayer dataset_name resp))

/-- The comprehension filter of `update_dataset` (lines 321-325): an item
matches when it has an `outDataset` key, a `params.data.url` key, and the url
value contains `lyr.url` as a substring. `none` models the AttributeError
Python raises when the url value is present but not a string (`.find` on a
non-string); items that are not dicts, or whose `params` / `params.data` are
not dicts, are treated as non-matching. -/
def addOpTest (lyrUrl : String) (x : JValue) : Option Bool :=
  if (x.getKey "outDataset").isSome then
    match x.getKey "params" with
    | some p =>
      match p.getKey "data" with
      | some d =>
        match d.getKey "url" with
        | some (.str u) => some (decide (0 ≤ pyFind u lyrUrl))
        | some _ => none
        | none => some false
      | none => some false
    | none => some false
  else some false

/-- The list comprehension `[x for x in model_items if ...]` of
`update_dataset`, propagating an exception raised by the filter. -/
def filterAddOps (lyrUrl : String) : List JValue → Option (List JValue)
  | [] => some []
  | x :: rest =>
    match addOpTest lyrUrl x with
    | none => none
    | some true => (filterAddOps lyrUrl rest).map (x :: ·)
    | some false => filterAddOps lyrUrl rest

/-- The inner loop of `update_dataset` (lines 360-362) over one dataset's
`tools` list: each entry whose `params.dataset` equals `old` has it replaced
by `new`. A KeyError / TypeError while reading `tools[i]['params']['dataset']`
is caught by the surrounding `except (KeyError, TypeError)` and aborts the
scan of this dataset, leaving the remaining entries untouched. -/
def replaceRefs (old new : JValue) : List JValue → List JValue
  | [] => []
  | t :: rest =>
    match t.getKey "params" with
    | some p =>
      match p.getKey "dataset" with
      | some d =>
          (if d = old then t.setKey "params" (p.setKey "dataset" new) else t) ::
            replaceRefs old new rest
      | none => t :: rest
    | none => t :: rest

/-- One iteration of the outer loop of `update_dataset` (lines 357-366): a
dataset without a `data.tools` list is skipped (its KeyError / TypeError is
caught), otherwise its tools are scanned by `replaceRefs`. -/
def updateEntry (old new : JValue) (kv : String × JValue) : String × JValue :=
  match kv.2.getKey "data" with
  | some dat =>
    match dat.getKey "tools" with
    | some (.arr ts) =>
        (kv.1, kv.2.setKey "data" (dat.setKey "tools" (.arr (replaceRefs old new ts))))
    | some _ => kv
    | none => kv
  | none => kv

/-- The outer loop of `update_dataset` over all datasets. -/
def updateRefsAll (old new : JValue) (ds : List (String × JValue)) :
    List (String × JValue) :=
  ds.map (updateEntry old new)

/-- Body of `update_dataset` after a successful `/execute` POST (lines
342-368). -/
def updateDatasetAfterPost (wb : Workbook) (lyr : Layer) (sublayer : Nat)
    (dataset_name : String) (respv : JValue) :
    Except (PyErr × Workbook) (Option String × Workbook) :=
  match getPath wb.props
      [.key "workspace", .key "datasets", .key dataset_name, .key "data"] with
  | none => .error (.lookup, wb)
  | some old_data =>
    match lyr.layers.get? sublayer with
    | none => .error (.lookup, wb)
    | some my_extent =>
      match respv.getKey dataset_name with
      | none => .error (.lookup, wb)
      | some newData =>
        match setKeyAt wb.props [.key "workspace", .key "datasets"] dataset_name
            (featureEntry newData lyr.id my_extent) with
        | none => .error (.lookup, wb)
        | some p1 =>
          match modifyPath p1 [.key "workspace", .key "datasets"] (fun v =>
              match v with
              | .obj ds => some (.obj (updateRefsAll old_data newData ds))
              | _ => none) with
          | none => .error (.lookup, { wb with props := p1 })
          | some p2 => .ok (some dataset_name, { wb with props := p2 })

/-- `InsightsWorkbook.update_dataset(lyr, sublayer)`. The returned string is
`some` of the dataset name on the normal path. The `except HTTPError`
handler evaluates `print("..." + sys.exc_info()[0])`, which itself raises
TypeError, so an `HTTPError` from the POST surfaces as an uncaught TypeError
and the fall-through `return None` after the handler is dead code (the
`none` alternative of the result type is never produced). Exceptions raised
before the POST mean no request is issued. -/
def update_dataset (wb : Workbook) (lyr : Layer) (sublayer : Nat)
    (resp : Except PostErr JValue) :
    List Request × Except (PyErr × Workbook) (Option String × Workbook) :=
  match getPath wb.props [.key "pages", .idx 0, .key "model", .key "items"] with
  | some (.arr items) =>
    match filterAddOps lyr.url items with
    | none => ([], .error (.lookup, wb))
    | some [] => ([], .error (.generic, wb))
    | some (a0 :: _) =>
      match a0.getKey "outDataset" with
      | some (.str dataset_name) =>
        match (a0.getKey "params").bind (·.getKey "data") |>.bind (·.getKey "url") with
        | some (.str stored_url) =>
          let req := Request.post (wb.workspaceURL ++ "/execute")
            (executeBody stored_url dataset_name)
          match resp with
          | .error .httpError => ([req], .error (.typeError, wb))
          | .error .otherError => ([req], .error (.httpOther, wb))
          | .ok respv =>
              ([req], updateDatasetAfterPost wb lyr sublayer dataset_name respv)
        | _ => ([], .error (.lookup, wb))
      | _ => ([], .error (.lookup, wb))
  | some _ => ([], .error (.lookup, wb))
  | none => ([], .error (.lookup, wb))

/-- The map card `add_map` appends (lines 397-404). -/
def mapCard (card_ct : Nat) (dataset : String) (extent : JValue) : JValue :=
  .obj [("type", .str "map"),
        ("title", .str ("Card " ++ toString (card_ct + 1))),
        ("content", .obj [
          ("layers", .arr [.obj [("datasetId", .str dataset)]]),
          ("extent", extent)])]

/-- The layout entry `add_map` and `add_chart` append. -/
def layoutEntry (card_ct : Nat) : JValue :=
  .obj [("x", .num (card_ct * 20 + card_ct)),
        ("y", .num 0),
        ("w", .num 20),
        ("h", .num 20)]

/-- `InsightsWorkbook.add_map(dataset)`. Issues no HTTP request. -/
def add_map (wb : Workbook) (dataset : String) :
    List Request × Except (PyErr × Workbook) Workbook :=
  ([],
    match getPath wb.props [.key "workspace", .key "datasets", .key dataset] with
    | none => .error (.lookup, wb)
    | some layer_dataset =>
      if layer_dataset.truthy then
        match getPath wb.props [.key "pages", .idx 0, .key "cards"] with
        | some (.arr cards) =>
          let card_ct := cards.length
          match getPath wb.props
              [.key "workspace", .key "datasets", .key dataset, .key "extent"] with
          | none => .error (.lookup, wb)
          | some my_extent =>
            match appendAt wb.props [.key "pages", .idx 0, .key "cards"]
                (mapCard card_ct dataset my_extent) with
            | none => .error (.lookup, wb)
            | some p1 =>
              match appendAt p1 [.key "pages", .idx 0, .key "layout"]
                  (layoutEntry card_ct) with
              | none => .error (.lookup, { wb with props := p1 })
              | some p2 => .ok { wb with props := p2 }
        | _ => .error (.lookup, wb)
      else .error (.generic, wb))

/-- Python `if not out_name: out_name = dflt`: `None` and the empty string
are falsy and replaced by the default. -/
def pyStrDefault (x : Option String) (dflt : String) : String :=
  match x with
  | none => dflt
  | some s => if s = "" then dflt else s

/-- The model item `aggregate` appends (lines 466-479). -/
def aggModelItem (in_dataset groupby_field stat_type stat_field out_field
    out_dataset : String) : JValue :=
  .obj [("operation", .str "aggregate"),
        ("params", .obj [
          ("dataset", .str in_dataset),
          ("groupBy", .arr [.str groupby_field]),
          ("statistics", .arr [.obj [
            ("type", .str stat_type),
            ("field", .str stat_field),
            ("outField", .str out_field)]]),
          ("totals", .bool false)]),
        ("outDataset", .str out_dataset)]

/-- The workspace entry `aggregate` stores (lines 485-532). The `fields`
dict literal is built by successive insertion so that equal keys collapse the
way a Python dict literal does. -/
def aggEntry (in_data_id : JValue) (groupby_field groupby_field_type stat_type
    stat_field out_field out_type out_dataset out_name in_dataset_base : String) :
    JValue :=
  .obj [("data", .obj [
          ("metadata", .obj [
            ("fields", .arr [
              .obj [("name", .str groupby_field),
                    ("alias", .str groupby_field),
                    ("type", .str groupby_field_type),
                    ("entity", .str "e0")],
              .obj [("name", .str out_field),
                    ("alias", .str out_field),
                    ("type", .str out_type)]]),
            ("entities", .arr [.obj [
              ("fields", .arr [.str groupby_field, .str out_field]),
              ("keyFields", .arr [.str groupby_field])]])]),
          ("tools", .arr [.obj [
            ("name", .str "aggregate"),
            ("params", .obj [
              ("dataset", in_data_id),
              ("groupBy", .arr [.str groupby_field]),
              ("statistics", .arr [.obj [
                ("type", .str stat_type),
                ("field", .str stat_field),
                ("outField", .str out_field)]]),
              ("materialize", .bool false)]),
            ("outDataset", .str out_dataset)]]),
          ("outDataset", .str out_dataset)]),
        ("name", .str out_name),
        ("fields", .obj (setAssoc
          (setAssoc [] out_field
            (.obj [("alias", .str (pyTitle stat_type ++ " of " ++ in_dataset_base))]))
          groupby_field (.obj [])))]

/-- `InsightsWorkbook.aggregate(...)`. `r` is the value of
`random.randrange(16**7)`; no HTTP request is issued. `out_name = none`
models passing Python `None`; a `some ""` is falsy and also replaced by the
internal name, as `if not out_name` does. -/
def aggregate (wb : Workbook) (in_dataset groupby_field groupby_field_type
    stat_type stat_field stat_field_type : String) (out_name : Option String)
    (r : Nat) :
    List Request × Except (PyErr × Workbook) (String × Workbook) :=
  let in_dataset_base := pySliceTo in_dataset (pyFind in_dataset "_")
  let out_dataset := in_dataset_base ++ "_" ++ formatHex 7 r
  let out_field := pyLower stat_field ++ "_" ++ stat_type
  let out_type :=
    if stat_type = "count" then "esriFieldTypeInteger"
    else if stat_type = "avg" then "esriFieldTypeDouble"
    else stat_field_type
  ([],
    match appendAt wb.props [.key "pages", .idx 0, .key "model", .key "items"]
        (aggModelItem in_dataset groupby_field stat_type stat_field out_field
          out_dataset) with
    | none => .error (.lookup, wb)
    | some p1 =>
      match getPath p1
          [.key "workspace", .key "datasets", .key in_dataset, .key "data"] with
      | none => .error (.lookup, { wb with props := p1 })
      | some in_data_id =>
        let out_name' := pyStrDefault out_name out_dataset
        match setKeyAt p1 [.key "workspace", .key "datasets"] out_dataset
            (aggEntry in_data_id groupby_field groupby_field_type stat_type
              stat_field out_field out_type out_dataset out_name'
              in_dataset_base) with
        | none => .error (.lookup, { wb with props := p1 })
        | some p2 => .ok (out_dataset, { wb with props := p2 }))

/-- The chart card `add_chart` appends (lines 577-590). -/
def chartCard (card_ct : Nat) (out_dataset chart_type : String) : JValue :=
  .obj [("title", .str ("Card " ++ toString (card_ct + 1))),
        ("type", .str "chart"),
        ("content", .obj [
          ("layers", .arr [.obj [
            ("datasetId", .str out_dataset),
            ("chartLines", .obj [("mean", .bool true)]),
            ("colors", .obj [])]]),
          ("type", .str chart_type)])]

/-- `InsightsWorkbook.add_chart(...)`. Calls `aggregate` internally; issues
no HTTP request. -/
def add_chart (wb : Workbook) (chart_type in_dataset groupby_field
    groupby_field_type stat_type stat_field stat_field_type : String)
    (r : Nat) : List Request × Except (PyErr × Workbook) Workbook :=
  ([],
    match getPath wb.props [.key "pages", .idx 0, .key "cards"] with
    | some (.arr cards) =>
      let card_ct := cards.length
      let chart_title := pyTitle chart_type ++ " Chart " ++ toString (card_ct + 1)
      match (aggregate wb in_dataset groupby_field groupby_field_type stat_type
          stat_field stat_field_type (some chart_title) r).2 with
      | .error e => .error e
      | .ok (out_dataset, wb1) =>
        match appendAt wb1.props [.key "pages", .idx 0, .key "cards"]
            (chartCard card_ct out_dataset chart_type) with
        | none => .error (.lookup, wb1)
        | some p1 =>
          match appendAt p1 [.key "pages", .idx 0, .key "layout"]
              (layoutEntry card_ct) with
          | none => .error (.lookup, { wb1 with props := p1 })
          | some p2 => .ok { wb1 with props := p2 }
    | _ => .error (.lookup, wb))

/-- `InsightsWorkbook.save()`. The four keys are set on `props` before the
POST is issued; `resp` is the outcome of the POST to the item update URL. -/
def save (wb : Workbook) (resp : Except PostErr Unit) :
    List Request × Except (PyErr × Workbook) Workbook :=
  match wb.props.trySetKey "id" (.str wb.workspaceID) with
  | none => ([], .error (.lookup, wb))
  | some p1 =>
    match p1.trySetKey "owner" (.str wb.gis.username) with
    | none => ([], .error (.lookup, { wb with props := p1 }))
    | some p2 =>
      match p2.trySetKey "name" (.str wb.workbookID) with
      | none => ([], .error (.lookup, { wb with props := p2 }))
      | some p3 =>
        match p3.trySetKey "url" (.str wb.workspaceURL) with
        | none => ([], .error (.lookup, { wb with props := p3 }))
        | some p4 =>
          let wb4 : Workbook := { wb with props := p4 }
          let post_data := [("f", "json"),
            ("title", wb.title),
            ("text", JValue.dumps p4)]
          let update_url := pyLower wb.gis.url ++ "/sharing/rest/content/users/" ++
            wb.gis.username ++ "/items/" ++ wb.workspaceID ++ "/update"
          let req := Request.post update_url post_data
          match resp with
          | .error _ => ([req], .error (.typeError, wb4))
          | .ok _ => ([req], .ok wb4)

/-!  Claim-side definitions: these follow the words of the specification and
the claims, to be compared with the code-derived definitions above. -/

/-- Claim C10's description of the base name: the portion of `in_dataset`
before its first underscore when it contains one, otherwise `in_dataset`
with its last character removed. -/
def specBase (s : String) : String :=
  if '_' ∈ s.data then ⟨s.data.takeWhile (fun c => c != '_')⟩
  else ⟨s.data.dropLast⟩

/-- A lowercase hexadecimal digit, as in the suffixes `'%07x'` produces. -/
def isHexDigitChar (c : Char) : Bool :=
  c.isDigit || ('a' ≤ c && c ≤ 'f')

/-- `suffix` is a suffix of `s`. -/
def strEndsWith (sfx s : String) : Prop := sfx.data <:+ s.data

instance (sfx s : String) : Decidable (strEndsWith sfx s) :=
  inferInstanceAs (Decidable (sfx.data <:+ s.data))

/-- A request to the create-service endpoint or the item update endpoint,
the two the spec allows `new` to call. -/
def newReqOk : Request → Prop
  | .post url _ => strEndsWith "/createService" url
  | .updateItem _ _ _ => True
  | .get _ _ => False

/-- A request to the get-item-data endpoint, the one the spec allows `open`
to call. -/
def openReqOk : Request → Prop
  | .get url _ => strEndsWith "/data" url
  | _ => False

/-- A request to the execute-workspace-tool endpoint, the one the spec
allows `add_feature_layer` and `update_dataset` to call. -/
def execReqOk : Request → Prop
  | .post url _ => strEndsWith "/execute" url
  | _ => False

/-- A request to the item update endpoint, the one the spec allows `save`
to call. -/
def saveReqOk : Request → Prop
  | .post url _ => strEndsWith "/update" url
  | _ => False

end InsightsWB

deriving instance DecidableEq for Except

namespace InsightsWB

/-!  Concrete sample states, shared by the witnesses and counterexamples. -/

/-- A Portal (non-AGOL) connection. -/
def sampleGis : Gis :=
  ⟨"https://myportal.dom/portal", "https://myportal.dom/portal", "PID", "alice"⟩

/-- A feature-layer item with one sublayer. -/
def sampleLayer : Layer :=
  ⟨"sales", "https://srv/FeatureServer", "LID", [.obj [("xmin", .num 0)]]⟩

/-- A well-formed workbook holding one feature-layer dataset. -/
def wbA : Workbook :=
  ⟨sampleGis, "T", "wbid0001", "wsid", "https://x/WorkspaceServer",
   .obj [
     ("pages", .arr [.obj [
       ("model", .obj [("items", .arr [])]),
       ("cards", .arr []),
       ("layout", .arr []),
       ("contents", .arr [])]]),
     ("workspace", .obj [("datasets", .obj [
       ("sales_0000abc", .obj [
         ("data", .str "D1"),
         ("extent", .obj [("xmin", .num 0)])])])])]⟩

/-- A workbook whose model records the add of `sampleLayer` under the name
`sales_0000abc`, with two further datasets derived from its data id `OLD`:
one whose first `tools` entry has no `params` key (its second entry
references `OLD`), and one whose single `tools` entry references `OLD`. -/
def wbRefs : Workbook :=
  ⟨sampleGis, "T", "wbid0001", "wsid", "https://x/WorkspaceServer",
   .obj [
     ("pages", .arr [.obj [
       ("model", .obj [("items", .arr [
         .obj [("operation", .str "add-data"),
               ("params", .obj [("data", .obj [
                 ("type", .str "feature-layer"),
                 ("url", .str "https://srv/FeatureServer/0")])]),
               ("outDataset", .str "sales_0000abc")]])]),
       ("cards", .arr []),
       ("layout", .arr []),
       ("contents", .arr [])]]),
     ("workspace", .obj [("datasets", .obj [
       ("sales_0000abc", .obj [("data", .str "OLD")]),
       ("sales_0000def", .obj [
         ("data", .obj [("tools", .arr [
           .obj [("name", .str "weird")],
           .obj [("name", .str "aggregate"),
                 ("params", .obj [("dataset", .str "OLD")])]])])]),
       ("sales_0000fff", .obj [
         ("data", .obj [("tools", .arr [
           .obj [("name", .str "aggregate"),
                 ("params", .obj [("dataset", .str "OLD")])]])])])])])]⟩

/-!  Lemmas about the string helpers. -/

theorem firstOccur_not_mem (c : Char) (l : List Char) (h : c ∉ l) :
    firstOccur [c] l = none := by
  induction l with
  | nil => simp [firstOccur]
  | cons a rest ih =>
    simp only [List.mem_cons, not_or] at h
    have hne : (c == a) = false := by
      simp only [beq_eq_false_iff_ne, ne_eq]
      exact h.1
    simp [firstOccur, List.isPrefixOf, hne, ih h.2]

theorem firstOccur_mem (c : Char) (l : List Char) (h : c ∈ l) :
    firstOccur [c] l = some ((l.takeWhile (fun a => a != c)).length) := by
  induction l with
  | nil => cases h
  | cons a rest ih =>
    by_cases hac : c = a
    · subst hac
      simp [firstOccur, List.isPrefixOf, List.takeWhile]
    · have hmem : c ∈ rest := by
        cases List.mem_cons.mp h with
        | inl hh => exact absurd hh hac
        | inr hh => exact hh
      have hne : (c == a) = false := by
        simp only [beq_eq_false_iff_ne, ne_eq]
        exact hac
      have hne' : (a != c) = true := by
        simp only [bne_iff_ne, ne_eq]
        exact fun hh => hac hh.symm
      simp [firstOccur, List.isPrefixOf, hne, ih hmem, List.takeWhile, hne']

theorem take_takeWhile_length (l : List Char) (p : Char → Bool) :
    l.take ((l.takeWhile p).length) = l.takeWhile p :=
  (List.prefix_iff_eq_take.mp (List.takeWhile_prefix p)).symm

/-- The base-name computation of `aggregate` (lines 452-454 of the source)
equals the claim's description of it. -/
theorem pySliceTo_pyFind_underscore (s : String) :
    pySliceTo s (pyFind s "_") = specBase s := by
  have hdata : ("_" : String).data = ['_'] := rfl
  by_cases h : '_' ∈ s.data
  · have := firstOccur_mem '_' s.data h
    simp only [pySliceTo, pyFind, hdata, this, specBase, if_pos h]
    have hnonneg : (0 : Int) ≤ ((s.data.takeWhile (fun a => a != '_')).length : Int) := by
      exact_mod_cast Nat.zero_le _
    have hlt : ¬ ((s.data.takeWhile (fun a => a != '_')).length : Int) < 0 := by omega
    simp only [if_neg hlt]
    have hmax : max ((s.data.takeWhile (fun a => a != '_')).length : Int) 0 =
        ((s.data.takeWhile (fun a => a != '_')).length : Int) := by omega
    rw [hmax]
    simp only [Int.toNat_ofNat]
    rw [take_takeWhile_length]
  · have := firstOccur_not_mem '_' s.data h
    simp only [pySliceTo, pyFind, hdata, this, specBase, if_neg h]
    have h1 : ((-1 : Int) < 0) := by omega
    simp only [if_pos h1]
    congr 1
    rw [List.dropLast_eq_take]
    congr 1
    omega

/-!  Lemmas about the hexadecimal formatting. -/

theorem hexChar_isHex (m : Nat) (h : m < 16) : isHexDigitChar (hexChar m) = true := by
  interval_cases m <;> decide

theorem natToHexAux_length_le :
    ∀ (fuel n k : Nat), n < 16 ^ k → (natToHexAux fuel n).length ≤ k := by
  intro fuel
  induction fuel with
  | zero =>
    intro n k _
    simp [natToHexAux]
  | succ fuel ih =>
    intro n k hn
    cases n with
    | zero => simp [natToHexAux]
    | succ m =>
      cases k with
      | zero =>
        exfalso
        simp at hn
      | succ k =>
        simp only [natToHexAux, List.length_append, List.length_singleton]
        have hdiv : (m + 1) / 16 < 16 ^ k := by
          rw [Nat.div_lt_iff_lt_mul (by omega : 0 < 16)]
          calc m + 1 < 16 ^ (k + 1) := hn
          _ = 16 ^ k * 16 := by rw [pow_succ]
        have := ih ((m + 1) / 16) k hdiv
        omega

theorem natToHex_length_le (k n : Nat) (hn : n < 16 ^ k) :
    (natToHex n).length ≤ k :=
  natToHexAux_length_le n n k hn

theorem natToHexAux_isHex :
    ∀ (fuel n : Nat), ∀ c ∈ natToHexAux fuel n, isHexDigitChar c = true := by
  intro fuel
  induction fuel with
  | zero =>
    intro n c hc
    simp [natToHexAux] at hc
  | succ fuel ih =>
    intro n c hc
    cases n with
    | zero => simp [natToHexAux] at hc
    | succ m =>
      simp only [natToHexAux, List.mem_append, List.mem_singleton] at hc
      cases hc with
      | inl hmem => exact ih ((m + 1) / 16) c hmem
      | inr heq =>
        subst heq
        exact hexChar_isHex _ (Nat.mod_lt (m + 1) (by omega))

theorem natToHex_isHex (n : Nat) : ∀ c ∈ natToHex n, isHexDigitChar c = true :=
  natToHexAux_isHex n n

theorem formatHex_length (w n : Nat) (hn : n < 16 ^ w) (hw : 0 < w) :
    (formatHex w n).length = w := by
  show (formatHex w n).data.length = w
  by_cases h0 : n = 0
  · simp [formatHex, h0]
    omega
  · have hle := natToHex_length_le w n hn
    simp [formatHex, h0]
    omega

theorem formatHex_isHex (w n : Nat) :
    ∀ c ∈ (formatHex w n).data, isHexDigitChar c = true := by
  intro c hc
  simp only [formatHex, List.mem_append, List.mem_replicate] at hc
  cases hc with
  | inl hrep =>
    rw [hrep.2]
    decide
  | inr hds =>
    by_cases h0 : n = 0
    · simp [h0] at hds
      rw [hds]
      decide
    · simp only [h0, if_false] at hds
      exact natToHex_isHex n c hds

/-!  Lemmas about association-list updates and path lookups. -/

@[simp]
theorem find_setAssoc_self (fs : List (String × JValue)) (k : String) (v : JValue) :
    (setAssoc fs k v).find? (fun p => p.1 = k) = some (k, v) := by
  induction fs with
  | nil => simp [setAssoc]
  | cons hd tl ih =>
    by_cases h : hd.1 = k
    · obtain ⟨k', v'⟩ := hd
      simp only at h
      simp [setAssoc, h]
    · obtain ⟨k', v'⟩ := hd
      simp only at h
      simp [setAssoc, h, ih]

theorem find_setAssoc_ne (fs : List (String × JValue)) (k k2 : String) (v : JValue)
    (h : k ≠ k2) :
    (setAssoc fs k v).find? (fun p => p.1 = k2) = fs.find? (fun p => p.1 = k2) := by
  induction fs with
  | nil => simp [setAssoc, h]
  | cons hd tl ih =>
    obtain ⟨k', v'⟩ := hd
    by_cases hk : k' = k
    · subst hk
      simp [setAssoc, h]
    · by_cases hk2 : k' = k2
      · subst hk2
        simp [setAssoc, hk]
      · simp [setAssoc, hk, hk2, ih]

theorem mem_keys_setAssoc (fs : List (String × JValue)) (k : String) (v : JValue) :
    k ∈ (JValue.obj (setAssoc fs k v)).keys := by
  induction fs with
  | nil => simp [setAssoc, JValue.keys]
  | cons hd tl ih =>
    obtain ⟨k', v'⟩ := hd
    by_cases h : k' = k
    · simp [setAssoc, h, JValue.keys]
    · simp only [JValue.keys, setAssoc, h, if_false, List.map_cons, List.mem_cons]
      right
      simpa [JValue.keys] using ih

theorem getKey_none_of_not_mem (ds : List (String × JValue)) (k : String)
    (h : k ∉ ds.map (·.1)) : (JValue.obj ds).getKey k = none := by
  simp only [JValue.getKey, Option.map_eq_none', List.find?_eq_none]
  intro p hp
  simp only [decide_eq_true_eq]
  intro he
  exact h (List.mem_map.mpr ⟨p, hp, he⟩)

theorem getPath_key_cons (v : JValue) (k : String) (rest : List PStep) :
    getPath v (.key k :: rest) = (v.getKey k).bind (fun x => getPath x rest) := by
  cases v <;> simp only [getPath, JValue.getKey, Option.bind] <;> try rfl
  rename_i fs
  cases fs.find? (fun p => p.1 = k) <;> rfl

theorem getPath_append (v : JValue) (p1 p2 : List PStep) :
    getPath v (p1 ++ p2) = (getPath v p1).bind (fun x => getPath x p2) := by
  induction p1 generalizing v with
  | nil => simp [getPath]
  | cons s rest ih =>
    cases s with
    | key k =>
      cases v <;> simp only [List.cons_append, getPath, Option.bind] <;> try rfl
      rename_i fs
      cases fs.find? (fun p => p.1 = k) with
      | none => rfl
      | some kv => simpa using ih kv.2
    | idx i =>
      cases v <;> simp only [List.cons_append, getPath, Option.bind] <;> try rfl
      rename_i xs
      cases xs.get? i with
      | none => rfl
      | some x => simpa using ih x

theorem modifyPath_some (path : List PStep) :
    ∀ (v : JValue) (f : JValue → Option JValue) (v' : JValue),
      modifyPath v path f = some v' →
      ∃ x y, getPath v path = some x ∧ f x = some y ∧ getPath v' path = some y := by
  induction path with
  | nil =>
    intro v f v' h
    simp only [modifyPath] at h
    exact ⟨v, v', by simp [getPath], h, by simp [getPath]⟩
  | cons s rest ih =>
    intro v f v' h
    cases s with
    | key k =>
      cases v
      case obj fs =>
        simp only [modifyPath] at h
        revert h
        cases hf : fs.find? (fun p => p.1 = k) with
        | none => intro h; cases h
        | some kv =>
          intro h
          simp only [Option.map_some', Option.map_eq_some'] at h
          obtain ⟨w', hw', hv'⟩ := h
          obtain ⟨x, y, hx, hy, hy'⟩ := ih kv.2 f w' hw'
          refine ⟨x, y, ?_, hy, ?_⟩
          · simp [getPath_key_cons, JValue.getKey, hf, hx]
          · rw [← hv']
            simp [getPath_key_cons, JValue.getKey, find_setAssoc_self, hy']
      all_goals simp [modifyPath] at h
    | idx i =>
      cases v
      case arr xs =>
        simp only [modifyPath] at h
        revert h
        cases hg : xs.get? i with
        | none => intro h; cases h
        | some w =>
          intro h
          simp only [Option.map_some', Option.map_eq_some'] at h
          obtain ⟨w', hw', hv'⟩ := h
          obtain ⟨x, y, hx, hy, hy'⟩ := ih w f w' hw'
          have hg' : xs[i]? = some w := by
            simpa [List.get?_eq_getElem?] using hg
          refine ⟨x, y, ?_, hy, ?_⟩
          · simp [getPath, hg', hx]
          · rw [← hv']
            have hlen : i < xs.length := (List.get?_eq_some.mp hg).1
            have hset : (xs.set i w')[i]? = some w' := List.getElem?_set_eq hlen
            simp [getPath, hset, hy']
      all_goals simp [modifyPath] at h

theorem setKeyAt_getPath (p : JValue) (path : List PStep) (k : String)
    (v p' : JValue) (h : setKeyAt p path k v = some p') :
    getPath p' (path ++ [.key k]) = some v := by
  obtain ⟨x, y, hx, hy, hy'⟩ := modifyPath_some path p _ p' h
  cases x
  case obj fs =>
    simp only [Option.some.injEq] at hy
    rw [getPath_append, hy', ← hy]
    simp [getPath, getPath_key_cons, JValue.getKey, find_setAssoc_self]
  all_goals simp at hy

theorem modifyPath_frame_key (v v' : JValue) (k1 k2 : String)
    (rest1 rest2 : List PStep) (f : JValue → Option JValue) (hne : k1 ≠ k2)
    (h : modifyPath v (.key k1 :: rest1) f = some v') :
    getPath v' (.key k2 :: rest2) = getPath v (.key k2 :: rest2) := by
  cases v
  case obj fs =>
    simp only [modifyPath] at h
    revert h
    cases hf : fs.find? (fun p => p.1 = k1) with
    | none => intro h; cases h
    | some kv =>
      intro h
      simp only [Option.map_some', Option.map_eq_some'] at h
      obtain ⟨w', _, hv'⟩ := h
      rw [← hv']
      simp [getPath_key_cons, JValue.getKey, find_setAssoc_ne fs k1 k2 w' hne]
  all_goals simp [modifyPath] at h

theorem modifyPath_frame (pref : List PStep) :
    ∀ (p p' : JValue) (k1 k2 : String) (r1 r2 : List PStep)
      (f : JValue → Option JValue), k1 ≠ k2 →
      modifyPath p (pref ++ .key k1 :: r1) f = some p' →
      getPath p' (pref ++ .key k2 :: r2) = getPath p (pref ++ .key k2 :: r2) := by
  induction pref with
  | nil =>
    intro p p' k1 k2 r1 r2 f hne h
    exact modifyPath_frame_key p p' k1 k2 r1 r2 f hne h
  | cons s pr ih =>
    intro p p' k1 k2 r1 r2 f hne h
    cases s with
    | key k =>
      cases p
      case obj fs =>
        simp only [List.cons_append, modifyPath] at h
        revert h
        cases hf : fs.find? (fun p => p.1 = k) with
        | none => intro h; cases h
        | some kv =>
          intro h
          simp only [Option.map_some', Option.map_eq_some'] at h
          obtain ⟨w', hw', hv'⟩ := h
          rw [← hv']
          simp only [List.cons_append, getPath_key_cons, JValue.getKey,
            find_setAssoc_self, hf, Option.map_some', Option.some_bind]
          exact ih kv.2 w' k1 k2 r1 r2 f hne hw'
      all_goals simp [modifyPath] at h
    | idx i =>
      cases p
      case arr xs =>
        simp only [List.cons_append, modifyPath] at h
        revert h
        cases hg : xs.get? i with
        | none => intro h; cases h
        | some w =>
          intro h
          simp only [Option.map_some', Option.map_eq_some'] at h
          obtain ⟨w', hw', hv'⟩ := h
          rw [← hv']
          have hlen : i < xs.length := (List.get?_eq_some.mp hg).1
          have hset : (xs.set i w')[i]? = some w' := List.getElem?_set_eq hlen
          have hg' : xs[i]? = some w := by
            simpa [List.get?_eq_getElem?] using hg
          simp only [List.cons_append, getPath, List.get?_eq_getElem?, hset, hg']
          exact ih w w' k1 k2 r1 r2 f hne hw'
      all_goals simp [modifyPath] at h

theorem appendAt_getPath (p : JValue) (path : List PStep) (item p' : JValue)
    (h : appendAt p path item = some p') :
    ∀ xs, getPath p path = some (.arr xs) →
      getPath p' path = some (.arr (xs ++ [item])) := by
  intro xs hxs
  obtain ⟨x, y, hx, hy, hy'⟩ := modifyPath_some path p _ p' h
  rw [hx] at hxs
  have hxx := Option.some.inj hxs
  subst hxx
  simp only [Option.some.injEq] at hy
  rw [hy', ← hy]

theorem setKeyAt_keys (p : JValue) (path : List PStep) (k : String)
    (v p' : JValue) (h : setKeyAt p path k v = some p') :
    ∀ dsv, getPath p' path = some dsv → k ∈ dsv.keys := by
  intro dsv hdsv
  obtain ⟨x, y, hx, hy, hy'⟩ := modifyPath_some path p _ p' h
  rw [hy'] at hdsv
  have hyd := Option.some.inj hdsv
  subst hyd
  cases x
  case obj fs =>
    simp only [Option.some.injEq] at hy
    rw [← hy]
    exact mem_keys_setAssoc fs k v
  all_goals simp at hy

theorem blanket_eq_ok {α : Type} (x : Except (PyErr × Workbook) α) (a : α)
    (h : blanket x = .ok a) : x = .ok a := by
  cases x with
  | ok b => simpa [blanket] using h
  | error e => simp [blanket] at h

/-- Inversion of a successful `add_feature_layer`: the shape of the
intermediate states and of the returned name. -/
theorem add_feature_layer_ok_inv (wb : Workbook) (lyr : Layer) (sub r : Nat)
    (resp : Except PostErr JValue) (name : String) (wb' : Workbook)
    (h : (add_feature_layer wb lyr sub r resp).2 = .ok (name, wb')) :
    ∃ respv p1 p2 my_extent dataVal,
      resp = .ok respv ∧
      name = lyr.title ++ "_" ++ formatHex 7 r ∧
      appendAt wb.props [.key "pages", .idx 0, .key "model", .key "items"]
        (addDataModelItem (lyr.url ++ "/" ++ toString sub) name) = some p1 ∧
      appendAt p1 [.key "pages", .idx 0, .key "contents"]
        (.obj [("dataset", .str name)]) = some p2 ∧
      lyr.layers[sub]? = some my_extent ∧
      respv.getKey name = some dataVal ∧
      setKeyAt p2 [.key "workspace", .key "datasets"] name
        (featureEntry dataVal lyr.id my_extent) = some wb'.props := by
  simp only [add_feature_layer] at h
  have hb := blanket_eq_ok _ _ h
  clear h
  unfold addFeatureLayerBody at hb
  cases resp with
  | error e => simp at hb
  | ok respv =>
    simp only [List.get?_eq_getElem?] at hb
    cases h1 : appendAt wb.props [.key "pages", .idx 0, .key "model", .key "items"]
        (addDataModelItem (lyr.url ++ "/" ++ toString sub)
          (lyr.title ++ "_" ++ formatHex 7 r)) with
    | none => simp [h1] at hb
    | some p1 =>
      simp only [h1] at hb
      cases h2 : appendAt p1 [.key "pages", .idx 0, .key "contents"]
          (.obj [("dataset", .str (lyr.title ++ "_" ++ formatHex 7 r))]) with
      | none => simp [h2] at hb
      | some p2 =>
        simp only [h2] at hb
        cases h3 : lyr.layers[sub]? with
        | none => simp [h3] at hb
        | some my_extent =>
          simp only [h3] at hb
          cases h4 : respv.getKey (lyr.title ++ "_" ++ formatHex 7 r) with
          | none => simp [h4] at hb
          | some dataVal =>
            simp only [h4] at hb
            cases h5 : setKeyAt p2 [.key "workspace", .key "datasets"]
                (lyr.title ++ "_" ++ formatHex 7 r)
                (featureEntry dataVal lyr.id my_extent) with
            | none => simp [h5] at hb
            | some p3 =>
              simp only [h5, Except.ok.injEq, Prod.mk.injEq] at hb
              obtain ⟨hname, hwb⟩ := hb
              subst hname
              refine ⟨respv, p1, p2, my_extent, dataVal, rfl, rfl, h1, h2, rfl, h4, ?_⟩
              rw [← hwb]
              exact h5

/-- Inversion of a successful `aggregate`: the shape of the intermediate
states, the returned name, and the stored entry. -/
theorem aggregate_ok_inv (wb : Workbook) (in_ds gb gbt st sf sft : String)
    (onm : Option String) (r : Nat) (name : String) (wb1 : Workbook)
    (h : (aggregate wb in_ds gb gbt st sf sft onm r).2 = .ok (name, wb1)) :
    ∃ p1 in_data_id,
      name = pySliceTo in_ds (pyFind in_ds "_") ++ "_" ++ formatHex 7 r ∧
      appendAt wb.props [.key "pages", .idx 0, .key "model", .key "items"]
        (aggModelItem in_ds gb st sf (pyLower sf ++ "_" ++ st) name) = some p1 ∧
      getPath p1 [.key "workspace", .key "datasets", .key in_ds, .key "data"] =
        some in_data_id ∧
      setKeyAt p1 [.key "workspace", .key "datasets"] name
        (aggEntry in_data_id gb gbt st sf (pyLower sf ++ "_" ++ st)
          (if st = "count" then "esriFieldTypeInteger"
           else if st = "avg" then "esriFieldTypeDouble" else sft)
          name
          (pyStrDefault onm name)
          (pySliceTo in_ds (pyFind in_ds "_"))) = some wb1.props := by
  simp only [aggregate] at h
  cases h1 : appendAt wb.props [.key "pages", .idx 0, .key "model", .key "items"]
      (aggModelItem in_ds gb st sf (pyLower sf ++ "_" ++ st)
        (pySliceTo in_ds (pyFind in_ds "_") ++ "_" ++ formatHex 7 r)) with
  | none => simp [h1] at h
  | some p1 =>
    simp only [h1] at h
    cases h2 : getPath p1 [.key "workspace", .key "datasets", .key in_ds, .key "data"] with
    | none => simp [h2] at h
    | some in_data_id =>
      simp only [h2] at h
      cases h3 : setKeyAt p1 [.key "workspace", .key "datasets"]
          (pySliceTo in_ds (pyFind in_ds "_") ++ "_" ++ formatHex 7 r)
          (aggEntry in_data_id gb gbt st sf (pyLower sf ++ "_" ++ st)
            (if st = "count" then "esriFieldTypeInteger"
             else if st = "avg" then "esriFieldTypeDouble" else sft)
            (pySliceTo in_ds (pyFind in_ds "_") ++ "_" ++ formatHex 7 r)
            (pyStrDefault onm (pySliceTo in_ds (pyFind in_ds "_") ++ "_" ++ formatHex 7 r))
            (pySliceTo in_ds (pyFind in_ds "_"))) with
      | none => simp [h3] at h
      | some p2 =>
        simp only [h3, Except.ok.injEq, Prod.mk.injEq] at h
        obtain ⟨hname, hwb⟩ := h
        subst hname
        refine ⟨p1, in_data_id, rfl, h1, h2, ?_⟩
        rw [← hwb]
        exact h3

/-- Inversion of a successful `add_map`: the dataset exists and is truthy,
and the card and layout entries are appended. -/
theorem add_map_ok_inv (wb : Workbook) (dataset : String) (wb' : Workbook)
    (h : (add_map wb dataset).2 = .ok wb') :
    ∃ layer_dataset cs my_extent p1,
      getPath wb.props [.key "workspace", .key "datasets", .key dataset] =
        some layer_dataset ∧
      layer_dataset.truthy = true ∧
      getPath wb.props [.key "pages", .idx 0, .key "cards"] = some (.arr cs) ∧
      getPath wb.props
        [.key "workspace", .key "datasets", .key dataset, .key "extent"] =
        some my_extent ∧
      appendAt wb.props [.key "pages", .idx 0, .key "cards"]
        (mapCard cs.length dataset my_extent) = some p1 ∧
      appendAt p1 [.key "pages", .idx 0, .key "layout"]
        (layoutEntry cs.length) = some wb'.props := by
  simp only [add_map] at h
  cases h1 : getPath wb.props [.key "workspace", .key "datasets", .key dataset] with
  | none => simp [h1] at h
  | some layer_dataset =>
    simp only [h1] at h
    by_cases ht : layer_dataset.truthy
    · simp only [ht, if_true] at h
      cases h2 : getPath wb.props [.key "pages", .idx 0, .key "cards"] with
      | none => simp [h2] at h
      | some cardsv =>
        simp only [h2] at h
        cases cardsv with
        | null => simp at h
        | bool b => simp at h
        | num n => simp at h
        | str str2 => simp at h
        | obj fs => simp at h
        | arr cs =>
          simp only at h
          cases h3 : getPath wb.props
              [.key "workspace", .key "datasets", .key dataset, .key "extent"] with
          | none => simp [h3] at h
          | some my_extent =>
            simp only [h3] at h
            cases h4 : appendAt wb.props [.key "pages", .idx 0, .key "cards"]
                (mapCard cs.length dataset my_extent) with
            | none => simp [h4] at h
            | some p1 =>
              simp only [h4] at h
              cases h5 : appendAt p1 [.key "pages", .idx 0, .key "layout"]
                  (layoutEntry cs.length) with
              | none => simp [h5] at h
              | some p2 =>
                simp only [h5, Except.ok.injEq] at h
                refine ⟨layer_dataset, cs, my_extent, p1, rfl, ht, rfl, rfl, h4, ?_⟩
                rw [← h]
                exact h5
    · simp only [ht, if_false] at h
      simp at h

/-- C6: after a successful `add_feature_layer` or `aggregate`, the returned
string is a key of `props['workspace']['datasets']`; for `add_feature_layer`
the stored entry carries the server data, the layer's owner id, the
sublayer's extent and `origin` True; for `aggregate` the stored entry's
`data.tools` hold the aggregate operation over the input dataset's data ID. -/
theorem claim_C6 :
    (∀ (wb : Workbook) (lyr : Layer) (sub r : Nat) (resp : Except PostErr JValue)
        (name : String) (wb' : Workbook),
      (add_feature_layer wb lyr sub r resp).2 = .ok (name, wb') →
      (∀ dsv, getPath wb'.props [.key "workspace", .key "datasets"] = some dsv →
         name ∈ dsv.keys) ∧
      getPath wb'.props [.key "workspace", .key "datasets", .key name, .key "owner"] =
        some (.str lyr.id) ∧
      getPath wb'.props [.key "workspace", .key "datasets", .key name, .key "origin"] =
        some (.bool true) ∧
      getPath wb'.props [.key "workspace", .key "datasets", .key name, .key "extent"] =
        lyr.layers[sub]? ∧
      getPath wb'.props [.key "workspace", .key "datasets", .key name, .key "data"] =
        resp.toOption.bind (fun v => v.getKey name)) ∧
    (∀ (wb : Workbook) (in_ds gb gbt st sf sft : String) (onm : Option String)
        (r : Nat) (name : String) (wb1 : Workbook),
      (aggregate wb in_ds gb gbt st sf sft onm r).2 = .ok (name, wb1) →
      (∀ dsv, getPath wb1.props [.key "workspace", .key "datasets"] = some dsv →
         name ∈ dsv.keys) ∧
      (∀ v, getPath wb.props
          [.key "workspace", .key "datasets", .key in_ds, .key "data"] = some v →
        getPath wb1.props
          [.key "workspace", .key "datasets", .key name, .key "data", .key "tools"] =
          some (.arr [.obj [
            ("name", .str "aggregate"),
            ("params", .obj [
              ("dataset", v),
              ("groupBy", .arr [.str gb]),
              ("statistics", .arr [.obj [
                ("type", .str st),
                ("field", .str sf),
                ("outField", .str (pyLower sf ++ "_" ++ st))]]),
              ("materialize", .bool false)]),
            ("outDataset", .str name)]]))) := by
  constructor
  · intro wb lyr sub r resp name wb' h
    obtain ⟨respv, p1, p2, my_extent, dataVal, hresp, hname, h1, h2, h3, h4, h5⟩ :=
      add_feature_layer_ok_inv wb lyr sub r resp name wb' h
    have hget : getPath wb'.props [.key "workspace", .key "datasets", .key name] =
        some (featureEntry dataVal lyr.id my_extent) :=
      setKeyAt_getPath p2 [.key "workspace", .key "datasets"] name _ wb'.props h5
    have hsplit : ∀ k : String,
        getPath wb'.props [.key "workspace", .key "datasets", .key name, .key k] =
        (getPath wb'.props [.key "workspace", .key "datasets", .key name]).bind
          (fun x => getPath x [.key k]) := fun k =>
      getPath_append wb'.props [.key "workspace", .key "datasets", .key name] [.key k]
    refine ⟨setKeyAt_keys p2 _ name _ wb'.props h5, ?_, ?_, ?_, ?_⟩
    · rw [hsplit "owner", hget]
      simp [featureEntry, getPath_key_cons, JValue.getKey, getPath]
    · rw [hsplit "origin", hget]
      simp [featureEntry, getPath_key_cons, JValue.getKey, getPath]
    · rw [hsplit "extent", hget, h3]
      simp [featureEntry, getPath_key_cons, JValue.getKey, getPath]
    · rw [hsplit "data", hget, hresp]
      simp only [Except.toOption, Option.some_bind, h4]
      simp [featureEntry, getPath_key_cons, JValue.getKey, getPath]
  · intro wb in_ds gb gbt st sf sft onm r name wb1 h
    obtain ⟨p1, in_data_id, hname, h1, h2, h3⟩ :=
      aggregate_ok_inv wb in_ds gb gbt st sf sft onm r name wb1 h
    refine ⟨setKeyAt_keys p1 _ name _ wb1.props h3, ?_⟩
    intro v hv
    have hframe : getPath p1
        (.key "workspace" :: [.key "datasets", .key in_ds, .key "data"]) =
        getPath wb.props
        (.key "workspace" :: [.key "datasets", .key in_ds, .key "data"]) :=
      modifyPath_frame_key wb.props p1 "pages" "workspace"
        [.idx 0, .key "model", .key "items"] [.key "datasets", .key in_ds, .key "data"]
        _ (by decide) h1
    have hv' : getPath p1 [.key "workspace", .key "datasets", .key in_ds, .key "data"] =
        some v := by
      rw [hframe]
      exact hv
    have hid : in_data_id = v := by
      rw [h2] at hv'
      exact Option.some.inj hv'
    subst hid
    have hget : getPath wb1.props [.key "workspace", .key "datasets", .key name] =
        some (aggEntry in_data_id gb gbt st sf (pyLower sf ++ "_" ++ st)
          (if st = "count" then "esriFieldTypeInteger"
           else if st = "avg" then "esriFieldTypeDouble" else sft)
          name (pyStrDefault onm name)
          (pySliceTo in_ds (pyFind in_ds "_"))) :=
      setKeyAt_getPath p1 [.key "workspace", .key "datasets"] name _ wb1.props h3
    have hsplit : getPath wb1.props
        [.key "workspace", .key "datasets", .key name, .key "data", .key "tools"] =
        (getPath wb1.props [.key "workspace", .key "datasets", .key name]).bind
          (fun x => getPath x [.key "data", .key "tools"]) :=
      getPath_append wb1.props [.key "workspace", .key "datasets", .key name]
        [.key "data", .key "tools"]
    rw [hsplit, hget]
    simp [aggEntry, getPath_key_cons, JValue.getKey, getPath]

theorem mem_keys_of_getKey_some (v : JValue) (k : String) (x : JValue)
    (h : v.getKey k = some x) : k ∈ v.keys := by
  cases v
  case obj fs =>
    simp only [JValue.getKey, Option.map_eq_some'] at h
    obtain ⟨a, hfind, hx⟩ := h
    have hmem := List.mem_of_find?_eq_some hfind
    have hp := List.find?_some hfind
    simp only [decide_eq_true_eq] at hp
    simp only [JValue.keys, List.mem_map]
    exact ⟨a, hmem, hp⟩
  all_goals simp [JValue.getKey] at h

/-- Inversion of a successful `add_chart`: the pre-state card list, the
inner `aggregate` call, and the two appends. -/
theorem add_chart_ok_inv (wb : Workbook)
    (ct in_ds gb gbt st sf sft : String) (r : Nat) (wb' : Workbook)
    (h : (add_chart wb ct in_ds gb gbt st sf sft r).2 = .ok wb') :
    ∃ cs out wb1 p1,
      getPath wb.props [.key "pages", .idx 0, .key "cards"] = some (.arr cs) ∧
      (aggregate wb in_ds gb gbt st sf sft
        (some (pyTitle ct ++ " Chart " ++ toString (cs.length + 1))) r).2 =
        .ok (out, wb1) ∧
      appendAt wb1.props [.key "pages", .idx 0, .key "cards"]
        (chartCard cs.length out ct) = some p1 ∧
      appendAt p1 [.key "pages", .idx 0, .key "layout"]
        (layoutEntry cs.length) = some wb'.props := by
  simp only [add_chart] at h
  cases h1 : getPath wb.props [.key "pages", .idx 0, .key "cards"] with
  | none => simp [h1] at h
  | some cardsv =>
    simp only [h1] at h
    cases cardsv with
    | null => simp at h
    | bool b => simp at h
    | num n => simp at h
    | str str2 => simp at h
    | obj fs => simp at h
    | arr cs =>
      simp only at h
      cases h2 : (aggregate wb in_ds gb gbt st sf sft
          (some (pyTitle ct ++ " Chart " ++ toString (cs.length + 1))) r).2 with
      | error e => simp [h2] at h
      | ok p =>
        obtain ⟨out, wb1⟩ := p
        simp only [h2] at h
        cases h3 : appendAt wb1.props [.key "pages", .idx 0, .key "cards"]
            (chartCard cs.length out ct) with
        | none => simp [h3] at h
        | some p1 =>
          simp only [h3] at h
          cases h4 : appendAt p1 [.key "pages", .idx 0, .key "layout"]
              (layoutEntry cs.length) with
          | none => simp [h4] at h
          | some p2 =>
            simp only [h4, Except.ok.injEq] at h
            refine ⟨cs, out, wb1, p1, rfl, h2, h3, ?_⟩
            rw [← h]
            exact h4

/-- C7: every card appended by a successful `add_map` or `add_chart` has a
non-empty `content.layers` list whose entries carry a `datasetId` naming a
key of `props['workspace']['datasets']` at the time the card is added. -/
theorem claim_C7 :
    (∀ (wb : Workbook) (dataset : String) (wb' : Workbook),
      (add_map wb dataset).2 = .ok wb' →
      (∀ dsv, getPath wb.props [.key "workspace", .key "datasets"] = some dsv →
         dataset ∈ dsv.keys) ∧
      (∀ cs, getPath wb.props [.key "pages", .idx 0, .key "cards"] = some (.arr cs) →
        getPath wb'.props [.key "pages", .idx 0, .key "cards", .idx cs.length,
          .key "content", .key "layers"] =
          some (.arr [.obj [("datasetId", .str dataset)]]))) ∧
    (∀ (wb : Workbook) (ct in_ds gb gbt st sf sft : String) (r : Nat)
        (wb' : Workbook),
      (add_chart wb ct in_ds gb gbt st sf sft r).2 = .ok wb' →
      ∀ cs, getPath wb.props [.key "pages", .idx 0, .key "cards"] = some (.arr cs) →
        ∃ dsname,
          getPath wb'.props [.key "pages", .idx 0, .key "cards", .idx cs.length,
            .key "content", .key "layers"] =
            some (.arr [.obj [
              ("datasetId", .str dsname),
              ("chartLines", .obj [("mean", .bool true)]),
              ("colors", .obj [])]]) ∧
          (∀ dsv, getPath wb'.props [.key "workspace", .key "datasets"] = some dsv →
             dsname ∈ dsv.keys)) := by
  constructor
  · intro wb dataset wb' h
    obtain ⟨layer_dataset, cs0, my_extent, p1, hds, _, hcards0, _, h4, h5⟩ :=
      add_map_ok_inv wb dataset wb' h
    constructor
    · intro dsv hdsv
      have hsplit : getPath wb.props
          [.key "workspace", .key "datasets", .key dataset] =
          (getPath wb.props [.key "workspace", .key "datasets"]).bind
            (fun x => getPath x [.key dataset]) :=
        getPath_append wb.props [.key "workspace", .key "datasets"] [.key dataset]
      rw [hsplit, hdsv] at hds
      simp only [Option.some_bind, getPath_key_cons, getPath] at hds
      revert hds
      cases hget : dsv.getKey dataset with
      | none => intro hds; simp at hds
      | some x =>
        intro _
        exact mem_keys_of_getKey_some dsv dataset x hget
    · intro cs hcards
      rw [hcards0] at hcards
      have hcs : cs0 = cs := by
        simpa using Option.some.inj hcards
      subst hcs
      have hp1 : getPath p1 [.key "pages", .idx 0, .key "cards"] =
          some (.arr (cs0 ++ [mapCard cs0.length dataset my_extent])) :=
        appendAt_getPath wb.props _ _ p1 h4 cs0 hcards0
      have hframe : getPath wb'.props
          ([.key "pages", .idx 0] ++ .key "cards" :: [.idx cs0.length,
            .key "content", .key "layers"]) =
          getPath p1 ([.key "pages", .idx 0] ++ .key "cards" :: [.idx cs0.length,
            .key "content", .key "layers"]) :=
        modifyPath_frame [.key "pages", .idx 0] p1 wb'.props "layout" "cards"
          [] [.idx cs0.length, .key "content", .key "layers"] _ (by decide) h5
      have hsplit : getPath p1
          ([.key "pages", .idx 0, .key "cards"] ++ [.idx cs0.length,
            .key "content", .key "layers"]) =
          (getPath p1 [.key "pages", .idx 0, .key "cards"]).bind
            (fun x => getPath x [.idx cs0.length, .key "content", .key "layers"]) :=
        getPath_append p1 [.key "pages", .idx 0, .key "cards"]
          [.idx cs0.length, .key "content", .key "layers"]
      rw [show ([.key "pages", .idx 0, .key "cards", .idx cs0.length,
            .key "content", .key "layers"] : List PStep) =
          [.key "pages", .idx 0] ++ .key "cards" :: [.idx cs0.length,
            .key "content", .key "layers"] from rfl, hframe]
      rw [show ([.key "pages", .idx 0] ++ .key "cards" :: [.idx cs0.length,
            .key "content", .key "layers"] : List PStep) =
          [.key "pages", .idx 0, .key "cards"] ++ [.idx cs0.length,
            .key "content", .key "layers"] from rfl, hsplit, hp1]
      simp only [Option.some_bind, getPath, List.get?_eq_getElem?,
        List.getElem?_concat_length]
      simp [mapCard, getPath_key_cons, JValue.getKey, getPath]
  · intro wb ct in_ds gb gbt st sf sft r wb' h
    intro cs hcards
    obtain ⟨cs0, out, wb1, p1, hcards0, hagg, h3, h4⟩ :=
      add_chart_ok_inv wb ct in_ds gb gbt st sf sft r wb' h
    rw [hcards0] at hcards
    have hcs : cs0 = cs := by
      simpa using Option.some.inj hcards
    subst hcs
    obtain ⟨pa, in_data_id, hname, ha1, ha2, ha3⟩ :=
      aggregate_ok_inv wb in_ds gb gbt st sf sft _ r out wb1 hagg
    -- the aggregate call leaves the card list unchanged
    have hfr1 : getPath pa
        ([.key "pages", .idx 0] ++ .key "cards" :: []) =
        getPath wb.props ([.key "pages", .idx 0] ++ .key "cards" :: []) :=
      modifyPath_frame [.key "pages", .idx 0] wb.props pa "model" "cards"
        [.key "items"] [] _ (by decide) ha1
    have hfr2 : getPath wb1.props
        ([] ++ .key "pages" :: [.idx 0, .key "cards"]) =
        getPath pa ([] ++ .key "pages" :: [.idx 0, .key "cards"]) :=
      modifyPath_frame [] pa wb1.props "workspace" "pages"
        [.key "datasets"] [.idx 0, .key "cards"] _ (by decide) ha3
    have hwb1cards : getPath wb1.props [.key "pages", .idx 0, .key "cards"] =
        some (.arr cs0) := by
      rw [show ([.key "pages", .idx 0, .key "cards"] : List PStep) =
          [] ++ .key "pages" :: [.idx 0, .key "cards"] from rfl, hfr2]
      rw [show (([] ++ .key "pages" :: [.idx 0, .key "cards"]) : List PStep) =
          [.key "pages", .idx 0] ++ .key "cards" :: [] from rfl, hfr1]
      exact hcards0
    refine ⟨out, ?_, ?_⟩
    · have hp1 : getPath p1 [.key "pages", .idx 0, .key "cards"] =
          some (.arr (cs0 ++ [chartCard cs0.length out ct])) :=
        appendAt_getPath wb1.props _ _ p1 h3 cs0 hwb1cards
      have hframe : getPath wb'.props
          ([.key "pages", .idx 0] ++ .key "cards" :: [.idx cs0.length,
            .key "content", .key "layers"]) =
          getPath p1 ([.key "pages", .idx 0] ++ .key "cards" :: [.idx cs0.length,
            .key "content", .key "layers"]) :=
        modifyPath_frame [.key "pages", .idx 0] p1 wb'.props "layout" "cards"
          [] [.idx cs0.length, .key "content", .key "layers"] _ (by decide) h4
      have hsplit : getPath p1
          ([.key "pages", .idx 0, .key "cards"] ++ [.idx cs0.length,
            .key "content", .key "layers"]) =
          (getPath p1 [.key "pages", .idx 0, .key "cards"]).bind
            (fun x => getPath x [.idx cs0.length, .key "content", .key "layers"]) :=
        getPath_append p1 [.key "pages", .idx 0, .key "cards"]
          [.idx cs0.length, .key "content", .key "layers"]
      rw [show ([.key "pages", .idx 0, .key "cards", .idx cs0.length,
            .key "content", .key "layers"] : List PStep) =
          [.key "pages", .idx 0] ++ .key "cards" :: [.idx cs0.length,
            .key "content", .key "layers"] from rfl, hframe]
      rw [show ([.key "pages", .idx 0] ++ .key "cards" :: [.idx cs0.length,
            .key "content", .key "layers"] : List PStep) =
          [.key "pages", .idx 0, .key "cards"] ++ [.idx cs0.length,
            .key "content", .key "layers"] from rfl, hsplit, hp1]
      simp only [Option.some_bind, getPath, List.get?_eq_getElem?,
        List.getElem?_concat_length]
      simp [chartCard, getPath_key_cons, JValue.getKey, getPath]
    · intro dsv hdsv
      -- the two appends do not touch the workspace
      have hfr4 : getPath wb'.props
          ([] ++ .key "workspace" :: [.key "datasets"]) =
          getPath p1 ([] ++ .key "workspace" :: [.key "datasets"]) :=
        modifyPath_frame [] p1 wb'.props "pages" "workspace"
          [.idx 0, .key "layout"] [.key "datasets"] _ (by decide) h4
      have hfr5 : getPath p1
          ([] ++ .key "workspace" :: [.key "datasets"]) =
          getPath wb1.props ([] ++ .key "workspace" :: [.key "datasets"]) :=
        modifyPath_frame [] wb1.props p1 "pages" "workspace"
          [.idx 0, .key "cards"] [.key "datasets"] _ (by decide) h3
      have hdsv1 : getPath wb1.props [.key "workspace", .key "datasets"] =
          some dsv := by
        rw [show ([.key "workspace", .key "datasets"] : List PStep) =
            [] ++ .key "workspace" :: [.key "datasets"] from rfl, ← hfr5, ← hfr4]
        exact hdsv
      exact setKeyAt_keys pa _ out _ wb1.props ha3 dsv hdsv1

/-- A concrete `/execute` response for the witnesses. -/
def aflResp : Except PostErr JValue := .ok (.obj [("sales_000000c", .str "D2")])

/-- The workbook produced by a concrete successful `add_feature_layer`. -/
def wbAflRes : Workbook :=
  match (add_feature_layer wbA sampleLayer 0 12 aflResp).2 with
  | .ok p => p.2
  | .error e => e.2

/-- The workbook produced by a concrete successful `aggregate`. -/
def wbAggRes : Workbook :=
  match (aggregate wbA "sales_0000abc" "region" "esriFieldTypeString" "sum"
      "Pop" "esriFieldTypeInteger" none 15).2 with
  | .ok p => p.2
  | .error e => e.2

/-- Witness for C6 at a concrete layer add and a concrete aggregation. -/
theorem claim_C6_witness :
    ((add_feature_layer wbA sampleLayer 0 12 aflResp).2 =
        .ok ("sales_000000c", wbAflRes) ∧
      (aggregate wbA "sales_0000abc" "region" "esriFieldTypeString" "sum" "Pop"
        "esriFieldTypeInteger" none 15).2 = .ok ("sales_000000f", wbAggRes) ∧
      getPath wbA.props
        [.key "workspace", .key "datasets", .key "sales_0000abc", .key "data"] =
        some (.str "D1")) ∧
    getPath wbAflRes.props
      [.key "workspace", .key "datasets", .key "sales_000000c", .key "owner"] =
      some (.str "LID") ∧
    getPath wbAflRes.props
      [.key "workspace", .key "datasets", .key "sales_000000c", .key "origin"] =
      some (.bool true) ∧
    getPath wbAggRes.props
      [.key "workspace", .key "datasets", .key "sales_000000f", .key "data",
       .key "tools"] =
      some (.arr [.obj [
        ("name", .str "aggregate"),
        ("params", .obj [
          ("dataset", .str "D1"),
          ("groupBy", .arr [.str "region"]),
          ("statistics", .arr [.obj [
            ("type", .str "sum"),
            ("field", .str "Pop"),
            ("outField", .str (pyLower "Pop" ++ "_" ++ "sum"))]]),
          ("materialize", .bool false)]),
        ("outDataset", .str "sales_000000f")]]) :=
  ⟨⟨by decide, by decide, by decide⟩,
   (claim_C6.1 wbA sampleLayer 0 12 aflResp "sales_000000c" wbAflRes (by decide)).2.1,
   (claim_C6.1 wbA sampleLayer 0 12 aflResp "sales_000000c" wbAflRes (by decide)).2.2.1,
   (claim_C6.2 wbA "sales_0000abc" "region" "esriFieldTypeString" "sum" "Pop"
     "esriFieldTypeInteger" none 15 "sales_000000f" wbAggRes (by decide)).2
     (.str "D1") (by decide)⟩

/-- The workbook produced by a concrete successful `add_map`. -/
def wbMapRes : Workbook :=
  match (add_map wbA "sales_0000abc").2 with
  | .ok w => w
  | .error e => e.2

/-- The workbook produced by a concrete successful `add_chart`. -/
def wbChartRes : Workbook :=
  match (add_chart wbA "bar" "sales_0000abc" "region" "esriFieldTypeString"
      "avg" "Pop" "esriFieldTypeDouble" 15).2 with
  | .ok w => w
  | .error e => e.2

/-- Witness for C7 at a concrete map card and a concrete chart card. -/
theorem claim_C7_witness :
    ((add_map wbA "sales_0000abc").2 = .ok wbMapRes ∧
     (add_chart wbA "bar" "sales_0000abc" "region" "esriFieldTypeString"
       "avg" "Pop" "esriFieldTypeDouble" 15).2 = .ok wbChartRes ∧
     getPath wbA.props [.key "pages", .idx 0, .key "cards"] = some (.arr []) ∧
     getPath wbA.props [.key "workspace", .key "datasets"] =
       some (.obj [("sales_0000abc", .obj [
         ("data", .str "D1"),
         ("extent", .obj [("xmin", .num 0)])])])) ∧
    ("sales_0000abc" ∈ (JValue.obj [("sales_0000abc", .obj [
        ("data", .str "D1"),
        ("extent", .obj [("xmin", .num 0)])])]).keys) ∧
    (getPath wbMapRes.props [.key "pages", .idx 0, .key "cards", .idx 0,
        .key "content", .key "layers"] =
      some (.arr [.obj [("datasetId", .str "sales_0000abc")]])) ∧
    (∃ dsname,
      getPath wbChartRes.props [.key "pages", .idx 0, .key "cards", .idx 0,
        .key "content", .key "layers"] =
        some (.arr [.obj [
          ("datasetId", .str dsname),
          ("chartLines", .obj [("mean", .bool true)]),
          ("colors", .obj [])]]) ∧
      (∀ dsv, getPath wbChartRes.props [.key "workspace", .key "datasets"] =
          some dsv → dsname ∈ dsv.keys)) :=
  ⟨⟨by decide, by decide, by decide, by decide⟩,
   (claim_C7.1 wbA "sales_0000abc" wbMapRes (by decide)).1
     (.obj [("sales_0000abc", .obj [
       ("data", .str "D1"),
       ("extent", .obj [("xmin", .num 0)])])]) (by decide),
   (claim_C7.1 wbA "sales_0000abc" wbMapRes (by decide)).2 [] (by decide),
   claim_C7.2 wbA "bar" "sales_0000abc" "region" "esriFieldTypeString"
     "avg" "Pop" "esriFieldTypeDouble" 15 wbChartRes (by decide) [] (by decide)⟩

/-- C2 counterexample: `aggregate` issues no HTTP request at all, yet its
successful run changes the props dictionary — refuting the claim that every
public operation performs a synchronous HTTP call and mutates props only
after contacting the server. -/
theorem claim_C2_counterexample :
    (aggregate wbA "sales_0000abc" "region" "esriFieldTypeString" "sum" "Pop"
      "esriFieldTypeInteger" none 15).1 = [] ∧
    (aggregate wbA "sales_0000abc" "region" "esriFieldTypeString" "sum" "Pop"
      "esriFieldTypeInteger" none 15).2 = .ok ("sales_000000f", wbAggRes) ∧
    wbAggRes.props ≠ wbA.props :=
  ⟨rfl, by decide, by decide⟩

/-- C2 amended: `new`, `open`, `add_feature_layer`, `update_dataset` and
`save` each issue an HTTP request; `add_feature_layer` and `update_dataset`
leave props unchanged when the call fails (their edits come only after a
successful call; the failure itself surfaces as the handler TypeError);
`save` sets the `id`, `owner`, `name` and `url` keys on props before its
POST; `aggregate`, `add_map` and `add_chart` mutate props purely in memory
and issue no HTTP request. -/
theorem claim_C2_amended :
    (∀ (wb : Workbook) (a b c d e f : String) (onm : Option String) (r : Nat),
       (aggregate wb a b c d e f onm r).1 = []) ∧
    (∀ (wb : Workbook) (dataset : String), (add_map wb dataset).1 = []) ∧
    (∀ (wb : Workbook) (a b c d e f g : String) (r : Nat),
       (add_chart wb a b c d e f g r).1 = []) ∧
    (∀ (wb : Workbook) (lyr : Layer) (sub r : Nat) (e : PostErr),
       (add_feature_layer wb lyr sub r (.error e)).1 =
         [Request.post (wb.workspaceURL ++ "/execute")
           (executeBody (lyr.url ++ "/" ++ toString sub)
             (lyr.title ++ "_" ++ formatHex 7 r))] ∧
       (add_feature_layer wb lyr sub r (.error e)).2 = .error (.typeError, wb)) ∧
    (∀ (wb : Workbook) (lyr : Layer) (sub : Nat),
       (update_dataset wb lyr sub (.error .httpError)).2 = .error (.typeError, wb) ∨
       (update_dataset wb lyr sub (.error .httpError)).2 = .error (.generic, wb) ∨
       (update_dataset wb lyr sub (.error .httpError)).2 = .error (.lookup, wb)) ∧
    (∀ (wb : Workbook) (fs : List (String × JValue)) (e : PostErr),
       wb.props = .obj fs →
       (save wb (.error e)).2 = .error (.typeError,
         { wb with props := (((wb.props.setKey "id" (.str wb.workspaceID)).setKey
             "owner" (.str wb.gis.username)).setKey "name"
             (.str wb.workbookID)).setKey "url" (.str wb.workspaceURL) })) ∧
    (∀ (g : Gis) (t : String) (r : Nat) (e1 : Except PostErr JValue)
       (e2 : Except PostErr Unit), (new g t r e1 e2).1 ≠ []) ∧
    (∀ (g : Gis) (it inm iid : String) (resp : Except PostErr JValue),
       (openWorkbook g it inm iid resp).1 =
         [Request.get (pyLower g.url ++ "/sharing/rest/content/items/" ++
           iid ++ "/data") [("f", "json")]]) := by
  refine ⟨fun _ _ _ _ _ _ _ _ _ => rfl, fun _ _ => rfl, fun _ _ _ _ _ _ _ _ _ => rfl,
    ?_, ?_, ?_, ?_, ?_⟩
  · intro wb lyr sub r e
    exact ⟨rfl, by simp [add_feature_layer, addFeatureLayerBody, blanket]⟩
  · intro wb lyr sub
    unfold update_dataset
    repeat' split
    all_goals simp_all
  · intro wb fs e hprops
    simp [save, JValue.trySetKey, JValue.setKey, hprops]
  · intro g t r e1 e2
    unfold new
    repeat' split
    all_goals simp
  · intro g it inm iid resp
    cases resp <;> rfl

/-- Witness for the amended C2, discharging its `props is a dict` hypothesis
at a concrete workbook. -/
theorem claim_C2_amended_witness :
    (wbA.props = .obj [
      ("pages", .arr [.obj [
        ("model", .obj [("items", .arr [])]),
        ("cards", .arr []),
        ("layout", .arr []),
        ("contents", .arr [])]]),
      ("workspace", .obj [("datasets", .obj [
        ("sales_0000abc", .obj [
          ("data", .str "D1"),
          ("extent", .obj [("xmin", .num 0)])])])])]) ∧
    (save wbA (.error .httpError)).2 = .error (.typeError,
      { wbA with props := (((wbA.props.setKey "id" (.str wbA.workspaceID)).setKey
          "owner" (.str wbA.gis.username)).setKey "name"
          (.str wbA.workbookID)).setKey "url" (.str wbA.workspaceURL) }) :=
  ⟨rfl, claim_C2_amended.2.2.2.2.2.1 wbA _ .httpError rfl⟩

theorem strEndsWith_append (a b : String) : strEndsWith b (a ++ b) := by
  simp only [strEndsWith, String.data_append]
  exact List.suffix_append _ _

/-- C5: the class only ever calls the four endpoints the spec names, with
the stated mapping: `new` posts to create-service and updates the item,
`open` gets the item data, `add_feature_layer` and `update_dataset` post to
the workspace execute tool, `save` posts to the item update URL, and
`aggregate`, `add_map`, `add_chart` call no endpoint at all. -/
theorem claim_C5 :
    (∀ (g : Gis) (t : String) (r : Nat) (e1 : Except PostErr JValue)
       (e2 : Except PostErr Unit), ∀ q ∈ (new g t r e1 e2).1, newReqOk q) ∧
    (∀ (g : Gis) (it inm iid : String) (resp : Except PostErr JValue),
       ∀ q ∈ (openWorkbook g it inm iid resp).1, openReqOk q) ∧
    (∀ (wb : Workbook) (lyr : Layer) (sub r : Nat) (resp : Except PostErr JValue),
       ∀ q ∈ (add_feature_layer wb lyr sub r resp).1, execReqOk q) ∧
    (∀ (wb : Workbook) (lyr : Layer) (sub : Nat) (resp : Except PostErr JValue),
       ∀ q ∈ (update_dataset wb lyr sub resp).1, execReqOk q) ∧
    (∀ (wb : Workbook) (resp : Except PostErr Unit),
       ∀ q ∈ (save wb resp).1, saveReqOk q) ∧
    (∀ (wb : Workbook) (a b c d e f : String) (onm : Option String) (r : Nat),
       (aggregate wb a b c d e f onm r).1 = []) ∧
    (∀ (wb : Workbook) (dataset : String), (add_map wb dataset).1 = []) ∧
    (∀ (wb : Workbook) (a b c d e f g : String) (r : Nat),
       (add_chart wb a b c d e f g r).1 = []) := by
  refine ⟨?_, ?_, ?_, ?_, ?_,
    fun _ _ _ _ _ _ _ _ _ => rfl, fun _ _ => rfl, fun _ _ _ _ _ _ _ _ _ => rfl⟩
  · intro g t r e1 e2 q hq
    unfold new at hq
    revert hq
    repeat' split
    all_goals intro hq
    all_goals simp only [List.mem_singleton, List.mem_cons, List.not_mem_nil,
      or_false] at hq
    all_goals first
      | (cases hq with
         | inl h1 => subst h1; exact strEndsWith_append _ _
         | inr h2 => subst h2; trivial)
      | (subst hq; exact strEndsWith_append _ _)
  · intro g it inm iid resp q hq
    cases resp <;>
      simp only [openWorkbook, List.mem_singleton] at hq <;>
      (subst hq; exact strEndsWith_append _ _)
  · intro wb lyr sub r resp q hq
    simp only [add_feature_layer, List.mem_singleton] at hq
    subst hq
    exact strEndsWith_append _ _
  · intro wb lyr sub resp q hq
    unfold update_dataset at hq
    revert hq
    repeat' split
    all_goals intro hq
    all_goals simp only [List.mem_singleton, List.not_mem_nil] at hq
    all_goals subst hq
    all_goals exact strEndsWith_append _ _
  · intro wb resp q hq
    unfold save at hq
    revert hq
    repeat' split
    all_goals intro hq
    all_goals simp only [List.mem_singleton, List.not_mem_nil] at hq
    all_goals subst hq
    all_goals exact strEndsWith_append _ _

/-- Witness for C5, applying the `new` conjunct at a concrete failed call. -/
theorem claim_C5_witness :
    (Request.post (sampleGis.portalUrl ++ "/sharing/rest/content/users/" ++
        sampleGis.username ++ "/createService")
      [("f", "json"),
       ("createParameters", "\x7b\"name\": \"" ++ formatHex 8 3735928559 ++ "\"\x7d"),
       ("targetType", "workspaceService")] ∈
      (new sampleGis "T" 3735928559 (.error .httpError) (.ok ())).1) ∧
    newReqOk (Request.post (sampleGis.portalUrl ++ "/sharing/rest/content/users/" ++
        sampleGis.username ++ "/createService")
      [("f", "json"),
       ("createParameters", "\x7b\"name\": \"" ++ formatHex 8 3735928559 ++ "\"\x7d"),
       ("targetType", "workspaceService")]) :=
  ⟨by decide,
   claim_C5.1 sampleGis "T" 3735928559 (.error .httpError) (.ok ()) _ (by decide)⟩

theorem blanket_error {α : Type} (x : Except (PyErr × Workbook) α)
    (e : PyErr) (wb2 : Workbook) (h : blanket x = .error (e, wb2)) :
    e = .typeError := by
  cases x with
  | ok a => simp [blanket] at h
  | error p =>
    simp only [blanket, Except.error.injEq, Prod.mk.injEq] at h
    exact h.1.symm

/-- C1 counterexample: when a POST fails, the handler does not print a
message and re-raise a generic exception — its own
`print("..." + sys.exc_info()[0])` raises TypeError, so an uncaught
TypeError propagates instead, both from the blanket handler of
`add_feature_layer` and from the `except HTTPError` handler of
`update_dataset`. -/
theorem claim_C1_counterexample :
    (add_feature_layer wbA sampleLayer 0 12 (.error .httpError)).2 =
      .error (.typeError, wbA) ∧
    (update_dataset wbRefs sampleLayer 0 (.error .httpError)).2 =
      .error (.typeError, wbRefs) ∧
    PyErr.typeError ≠ PyErr.generic :=
  ⟨by decide, by decide, by decide⟩

/-- C1 amended: every handler that tries to print the caught error (the
blanket catches of `new`, `open`, `add_feature_layer` and `save`, and the
`except HTTPError` of `update_dataset`) raises TypeError from concatenating
a string with the exception class, so it neither prints nor re-raises — the
caller sees an uncaught TypeError. Only the two plain-message branches
(`update_dataset` on a layer with no matching model item, `add_map` on a
falsy dataset entry) print and raise a bare `Exception()`. A non-`HTTPError`
POST exception in `update_dataset` propagates as-is, and `add_map` and
`aggregate` have no handler around their subscripting, so a missing dataset
raises an uncaught KeyError. -/
theorem claim_C1_amended :
    (∀ (g : Gis) (t : String) (r : Nat) (e1 : Except PostErr JValue)
       (e2 : Except PostErr Unit) (e : PyErr),
       (new g t r e1 e2).2 = .error e → e = .typeError) ∧
    (∀ (g : Gis) (it inm iid : String) (resp : Except PostErr JValue) (e : PyErr),
       (openWorkbook g it inm iid resp).2 = .error e → e = .typeError) ∧
    (∀ (wb : Workbook) (lyr : Layer) (sub r : Nat) (resp : Except PostErr JValue)
       (e : PyErr) (wb2 : Workbook),
       (add_feature_layer wb lyr sub r resp).2 = .error (e, wb2) →
       e = .typeError) ∧
    (∀ (wb : Workbook) (fs : List (String × JValue)) (resp : Except PostErr Unit)
       (e : PyErr) (wb2 : Workbook), wb.props = .obj fs →
       (save wb resp).2 = .error (e, wb2) → e = .typeError) ∧
    (∀ (wb : Workbook) (lyr : Layer) (sub : Nat),
       (update_dataset wb lyr sub (.error .httpError)).2 =
         .error (.typeError, wb) ∨
       (update_dataset wb lyr sub (.error .httpError)).2 = .error (.generic, wb) ∨
       (update_dataset wb lyr sub (.error .httpError)).2 = .error (.lookup, wb)) ∧
    (∀ (wb : Workbook) (lyr : Layer) (sub : Nat),
       (update_dataset wb lyr sub (.error .httpError)).2 =
         .error (.typeError, wb) →
       (update_dataset wb lyr sub (.error .otherError)).2 =
         .error (.httpOther, wb)) ∧
    (∀ (wb : Workbook) (dataset : String) (v : JValue),
       getPath wb.props [.key "workspace", .key "datasets", .key dataset] =
         some v →
       v.truthy = false →
       (add_map wb dataset).2 = .error (.generic, wb)) ∧
    (∀ (wb : Workbook) (fs wfs ds : List (String × JValue)) (dataset : String),
       wb.props = .obj fs →
       fs.find? (fun p => p.1 = "workspace") = some ("workspace", .obj wfs) →
       wfs.find? (fun p => p.1 = "datasets") = some ("datasets", .obj ds) →
       dataset ∉ ds.map (·.1) →
       (add_map wb dataset).2 = .error (.lookup, wb)) := by
  refine ⟨?_, ?_, ?_, ?_, ?_, ?_, ?_, ?_⟩
  · intro g t r e1 e2 e h
    unfold new at h
    revert h
    repeat' split
    all_goals intro h
    all_goals simp_all
  · intro g it inm iid resp e h
    cases resp <;> simp_all [openWorkbook]
  · intro wb lyr sub r resp e wb2 h
    simp only [add_feature_layer] at h
    exact blanket_error _ e wb2 h
  · intro wb fs resp e wb2 hprops h
    cases resp <;>
      simp_all [save, JValue.trySetKey, hprops]
  · intro wb lyr sub
    unfold update_dataset
    repeat' split
    all_goals simp_all
  · intro wb lyr sub h
    unfold update_dataset at h ⊢
    revert h
    repeat' split
    all_goals intro h
    all_goals simp_all
  · intro wb dataset v hv htruthy
    simp [add_map, hv, htruthy]
  · intro wb fs wfs ds dataset hprops hws hds hnot
    have hnone : (JValue.obj ds).getKey dataset = none :=
      getKey_none_of_not_mem ds dataset hnot
    simp only [JValue.getKey] at hnone
    simp [add_map, getPath, hprops, hws, hds, hnone]

/-- Witness for the amended C1 at concrete runs: `update_dataset` with a
matched layer whose POST fails, and a failing `new`. -/
theorem claim_C1_amended_witness :
    ((update_dataset wbRefs sampleLayer 0 (.error .httpError)).2 =
       .error (.typeError, wbRefs)) ∧
    ((update_dataset wbRefs sampleLayer 0 (.error .otherError)).2 =
       .error (.httpOther, wbRefs)) ∧
    PyErr.typeError = PyErr.typeError :=
  ⟨by decide,
   claim_C1_amended.2.2.2.2.2.1 wbRefs sampleLayer 0 (by decide),
   claim_C1_amended.1 sampleGis "T" 0 (.error .httpError) (.ok ()) .typeError
     (by decide)⟩

theorem getKey_some_obj (v : JValue) (k : String) (x : JValue)
    (h : v.getKey k = some x) : ∃ fs, v = .obj fs := by
  cases v <;> simp [JValue.getKey] at h
  exact ⟨_, rfl⟩

theorem getKey_setKey_self (fs : List (String × JValue)) (k : String) (x : JValue) :
    ((JValue.obj fs).setKey k x).getKey k = some x := by
  simp [JValue.setKey, JValue.getKey, find_setAssoc_self]

/-- In a tools list whose entries all expose `params.dataset`, the scan of
`update_dataset` leaves no reference to the old data id: every reference in
the result equals the new id or differs from the old one. -/
theorem replaceRefs_no_old (old new : JValue) :
    ∀ ts : List JValue,
      (∀ t ∈ ts, ∃ p d, t.getKey "params" = some p ∧ p.getKey "dataset" = some d) →
      ∀ t' ∈ replaceRefs old new ts, ∀ p' d', t'.getKey "params" = some p' →
        p'.getKey "dataset" = some d' → d' = new ∨ d' ≠ old := by
  intro ts
  induction ts with
  | nil =>
    intro _ t' ht'
    simp [replaceRefs] at ht'
  | cons t rest ih =>
    intro hwf t' ht' p' d' hp' hd'
    obtain ⟨p, d, hp, hd⟩ := hwf t (List.mem_cons_self t rest)
    simp only [replaceRefs, hp, hd] at ht'
    cases List.mem_cons.mp ht' with
    | inr htail =>
      exact ih (fun u hu => hwf u (List.mem_cons_of_mem t hu)) t' htail p' d' hp' hd'
    | inl hhead =>
      by_cases hde : d = old
      · rw [if_pos hde] at hhead
        obtain ⟨tfs, htfs⟩ := getKey_some_obj t "params" p hp
        obtain ⟨pfs, hpfs⟩ := getKey_some_obj p "dataset" d hd
        subst htfs hpfs hhead
        rw [getKey_setKey_self] at hp'
        have hpp := Option.some.inj hp'
        rw [← hpp, getKey_setKey_self] at hd'
        exact Or.inl (Option.some.inj hd').symm
      · simp only [if_neg hde] at hhead
        subst hhead
        rw [hp] at hp'
        have hpp := Option.some.inj hp'
        rw [← hpp, hd] at hd'
        have hdd := Option.some.inj hd'
        exact Or.inr (by rw [← hdd]; exact hde)

/-- The abort behaviour forced by the counterexample: a tools entry whose
`params` or `params.dataset` is unreadable stops the scan of that dataset,
leaving it (and in particular every later entry) unchanged. -/
theorem replaceRefs_abort (old new : JValue) (t : JValue) (ts : List JValue)
    (h : t.getKey "params" = none ∨
      (∃ p, t.getKey "params" = some p ∧ p.getKey "dataset" = none)) :
    replaceRefs old new (t :: ts) = t :: ts := by
  cases h with
  | inl hn => simp only [replaceRefs, hn]
  | inr he =>
    obtain ⟨p, hp, hd⟩ := he
    simp only [replaceRefs, hp, hd]

/-- An entry whose `data` value has no readable `tools` list is unchanged. -/
theorem updateEntry_no_tools (old new : JValue) (kv : String × JValue)
    (hcond : ∀ dat, kv.2.getKey "data" = some dat → dat.getKey "tools" = none) :
    updateEntry old new kv = kv := by
  unfold updateEntry
  cases hdat : kv.2.getKey "data" with
  | none => rfl
  | some dat =>
    dsimp only
    rw [hcond dat hdat]

/-- The reference scan keeps every dataset key in place. -/
theorem updateEntry_fst (old new : JValue) (kv : String × JValue) :
    (updateEntry old new kv).1 = kv.1 := by
  unfold updateEntry
  cases kv.2.getKey "data" with
  | none => rfl
  | some dat =>
    dsimp only
    cases hdt : dat.getKey "tools" with
    | none => rfl
    | some tl => cases tl <;> rfl

/-- A dataset without a `data` key is not touched by the reference scan. -/
theorem updateRefsAll_mem_no_data (old new : JValue)
    (ds : List (String × JValue)) (k : String) (v : JValue)
    (hmem : (k, v) ∈ ds) (hnd : v.getKey "data" = none) :
    (k, v) ∈ updateRefsAll old new ds := by
  unfold updateRefsAll
  refine List.mem_map.mpr ⟨(k, v), hmem, ?_⟩
  exact updateEntry_no_tools old new (k, v) (fun dat hdat => by
    rw [hnd] at hdat
    cases hdat)

/-- An entry whose `data` value has no `tools` key is not touched by the
reference scan, and is still found behind the same key afterwards. -/
theorem updateRefsAll_getKey_no_tools (old new : JValue) :
    ∀ (ds : List (String × JValue)) (k : String) (v : JValue),
      (JValue.obj ds).getKey k = some v →
      (∀ dat, v.getKey "data" = some dat → dat.getKey "tools" = none) →
      (JValue.obj (updateRefsAll old new ds)).getKey k = some v := by
  intro ds
  induction ds with
  | nil =>
    intro k v hv
    simp [JValue.getKey] at hv
  | cons kv rest ih =>
    intro k v hv hcond
    by_cases hk : kv.1 = k
    · have hfind : ((kv :: rest).find? (fun p => p.1 = k)) = some kv :=
        List.find?_cons_of_pos _ (by simp [hk])
      have hvv : v = kv.2 := by
        simp only [JValue.getKey, hfind, Option.map_some'] at hv
        exact (Option.some.inj hv).symm
      subst hvv
      have hhead : updateEntry old new kv = kv := updateEntry_no_tools old new kv hcond
      unfold updateRefsAll
      simp only [List.map_cons, hhead]
      have hfind2 : ((kv :: rest.map (updateEntry old new)).find?
          (fun p => p.1 = k)) = some kv :=
        List.find?_cons_of_pos _ (by simp [hk])
      simp only [JValue.getKey, hfind2, Option.map_some']
    · have hfind : ((kv :: rest).find? (fun p => p.1 = k)) =
          rest.find? (fun p => p.1 = k) :=
        List.find?_cons_of_neg _ (by simp [hk])
      have hrest : (JValue.obj rest).getKey k = some v := by
        simpa [JValue.getKey, hfind] using hv
      have hres := ih k v hrest hcond
      unfold updateRefsAll at hres ⊢
      simp only [List.map_cons]
      have hfind2 : ((updateEntry old new kv :: rest.map (updateEntry old new)).find?
          (fun p => p.1 = k)) = (rest.map (updateEntry old new)).find?
          (fun p => p.1 = k) :=
        List.find?_cons_of_neg _ (by simp [updateEntry_fst, hk])
      simp only [JValue.getKey, hfind2]
      simpa [JValue.getKey] using hres

/-- Inversion of an `update_dataset` run whose POST succeeded and that
returned normally. -/
theorem update_dataset_ok_inv (wb : Workbook) (lyr : Layer) (sub : Nat)
    (respv : JValue) (name : Option String) (wb' : Workbook)
    (h : (update_dataset wb lyr sub (.ok respv)).2 = .ok (name, wb')) :
    ∃ items a0 rest dataset_name old_data my_extent newData p1 ds1,
      getPath wb.props [.key "pages", .idx 0, .key "model", .key "items"] =
        some (.arr items) ∧
      filterAddOps lyr.url items = some (a0 :: rest) ∧
      a0.getKey "outDataset" = some (.str dataset_name) ∧
      name = some dataset_name ∧
      getPath wb.props
        [.key "workspace", .key "datasets", .key dataset_name, .key "data"] =
        some old_data ∧
      lyr.layers[sub]? = some my_extent ∧
      respv.getKey dataset_name = some newData ∧
      setKeyAt wb.props [.key "workspace", .key "datasets"] dataset_name
        (featureEntry newData lyr.id my_extent) = some p1 ∧
      getPath p1 [.key "workspace", .key "datasets"] = some (.obj ds1) ∧
      getPath wb'.props [.key "workspace", .key "datasets"] =
        some (.obj (updateRefsAll old_data newData ds1)) := by
  unfold update_dataset at h
  cases h0 : getPath wb.props [.key "pages", .idx 0, .key "model", .key "items"] with
  | none => simp [h0] at h
  | some itemsv =>
    simp only [h0] at h
    cases itemsv with
    | null => simp at h
    | bool b => simp at h
    | num n => simp at h
    | str s2 => simp at h
    | obj fs => simp at h
    | arr items =>
      simp only at h
      cases h1 : filterAddOps lyr.url items with
      | none => simp [h1] at h
      | some ops =>
        simp only [h1] at h
        cases ops with
        | nil => simp at h
        | cons a0 rest =>
          simp only at h
          cases h2 : a0.getKey "outDataset" with
          | none => simp [h2] at h
          | some odv =>
            simp only [h2] at h
            cases odv with
            | null => simp at h
            | bool b => simp at h
            | num n => simp at h
            | arr xs => simp at h
            | obj fs => simp at h
            | str dataset_name =>
              simp only at h
              cases h3 : ((a0.getKey "params").bind
                  (fun x => x.getKey "data")).bind (fun x => x.getKey "url") with
              | none => simp [h3] at h
              | some uv =>
                simp only [h3] at h
                cases uv with
                | null => simp at h
                | bool b => simp at h
                | num n => simp at h
                | arr xs => simp at h
                | obj fs => simp at h
                | str stored_url =>
                  simp only at h
                  unfold updateDatasetAfterPost at h
                  cases h4 : getPath wb.props [.key "workspace", .key "datasets",
                      .key dataset_name, .key "data"] with
                  | none => simp [h4] at h
                  | some old_data =>
                    simp only [h4, List.get?_eq_getElem?] at h
                    cases h5 : lyr.layers[sub]? with
                    | none => simp [h5] at h
                    | some my_extent =>
                      simp only [h5] at h
                      cases h6 : respv.getKey dataset_name with
                      | none => simp [h6] at h
                      | some newData =>
                        simp only [h6] at h
                        cases h7 : setKeyAt wb.props
                            [.key "workspace", .key "datasets"] dataset_name
                            (featureEntry newData lyr.id my_extent) with
                        | none => simp [h7] at h
                        | some p1 =>
                          simp only [h7] at h
                          cases h8 : modifyPath p1
                              [.key "workspace", .key "datasets"] (fun v =>
                                match v with
                                | .obj ds => some (.obj
                                    (updateRefsAll old_data newData ds))
                                | _ => none) with
                          | none => simp [h8] at h
                          | some p2 =>
                            simp only [h8, Except.ok.injEq, Prod.mk.injEq] at h
                            obtain ⟨hname, hwb⟩ := h
                            obtain ⟨x, y, hx, hy, hy'⟩ :=
                              modifyPath_some _ p1 _ p2 h8
                            cases x with
                            | null => simp at hy
                            | bool b => simp at hy
                            | num n => simp at hy
                            | str s2 => simp at hy
                            | arr xs => simp at hy
                            | obj ds1 =>
                              simp only [Option.some.injEq] at hy
                              refine ⟨items, a0, rest, dataset_name, old_data,
                                my_extent, newData, p1, ds1, rfl, h1, h2,
                                hname.symm, h4, rfl, h6, h7, hx, ?_⟩
                              rw [← hwb, hy', ← hy]

theorem getPath_nil (v : JValue) : getPath v [] = some v := by
  cases v <;> rfl

theorem getPath_single (v : JValue) (k : String) :
    getPath v [.key k] = v.getKey k := by
  rw [getPath_key_cons]
  cases v.getKey k with
  | none => rfl
  | some x => simp [getPath_nil]

/-- The workbook produced by running `update_dataset` on `wbRefs` with a
successful POST that returns the new data id `NEW`. -/
def wbRefsRes : Workbook :=
  match (update_dataset wbRefs sampleLayer 0
      (.ok (.obj [("sales_0000abc", .str "NEW")]))).2 with
  | .ok p => p.2
  | .error e => e.2

/-- C8 counterexample: after a successful `update_dataset` on `wbRefs`, the
dataset `sales_0000def` — whose first tools entry has no `params` key — still
references the old data id `OLD` in its second tools entry, because the
KeyError aborts that dataset's scan; so it is not true that afterwards no
dataset references the old id. -/
theorem claim_C8_counterexample :
    (update_dataset wbRefs sampleLayer 0
        (.ok (.obj [("sales_0000abc", .str "NEW")]))).2 =
      .ok (some "sales_0000abc", wbRefsRes) ∧
    getPath wbRefsRes.props [.key "workspace", .key "datasets",
      .key "sales_0000def", .key "data", .key "tools", .idx 1,
      .key "params", .key "dataset"] = some (.str "OLD") ∧
    getPath wbRefsRes.props [.key "workspace", .key "datasets",
      .key "sales_0000fff", .key "data", .key "tools", .idx 0,
      .key "params", .key "dataset"] = some (.str "NEW") ∧
    (JValue.str "OLD") ≠ .str "NEW" :=
  ⟨by decide, by decide, by decide, by decide⟩

/-- C8 amended: a successful `update_dataset` returns the `outDataset` name
of the first matching model item and replaces that dataset's workspace entry
with a fresh entry holding the server's new data id; the final datasets
mapping is the element-wise reference scan of the updated mapping, in which
a dataset whose tools entries all expose `params.dataset` retains no
reference to the old id (each final reference equals the new id or differs
from the old), a tools entry without a readable `params.dataset` aborts that
dataset's scan leaving the rest of it unchanged, and a dataset without a
`data` key is untouched. -/
theorem claim_C8_amended :
    (∀ (wb : Workbook) (lyr : Layer) (sub : Nat) (respv : JValue)
        (name : Option String) (wb' : Workbook),
      (update_dataset wb lyr sub (.ok respv)).2 = .ok (name, wb') →
      ∃ dataset_name old_data newData my_extent ds1,
        name = some dataset_name ∧
        respv.getKey dataset_name = some newData ∧
        getPath wb.props [.key "workspace", .key "datasets", .key dataset_name,
          .key "data"] = some old_data ∧
        getPath wb'.props [.key "workspace", .key "datasets"] =
          some (.obj (updateRefsAll old_data newData ds1)) ∧
        (JValue.obj ds1).getKey dataset_name =
          some (featureEntry newData lyr.id my_extent) ∧
        (newData.getKey "tools" = none →
          getPath wb'.props [.key "workspace", .key "datasets",
            .key dataset_name, .key "data"] = some newData)) ∧
    (∀ old new : JValue, ∀ ts : List JValue,
      (∀ t ∈ ts, ∃ p d, t.getKey "params" = some p ∧ p.getKey "dataset" = some d) →
      ∀ t' ∈ replaceRefs old new ts, ∀ p' d', t'.getKey "params" = some p' →
        p'.getKey "dataset" = some d' → d' = new ∨ d' ≠ old) ∧
    (∀ (old new t : JValue) (ts : List JValue),
      (t.getKey "params" = none ∨
        (∃ p, t.getKey "params" = some p ∧ p.getKey "dataset" = none)) →
      replaceRefs old new (t :: ts) = t :: ts) ∧
    (∀ (old new : JValue) (ds : List (String × JValue)) (k : String) (v : JValue),
      (k, v) ∈ ds → v.getKey "data" = none → (k, v) ∈ updateRefsAll old new ds) := by
  refine ⟨?_, replaceRefs_no_old, replaceRefs_abort, updateRefsAll_mem_no_data⟩
  intro wb lyr sub respv name wb' h
  obtain ⟨items, a0, rest, dataset_name, old_data, my_extent, newData, p1, ds1,
    h0, h1, h2, hname, h4, h5, h6, h7, hx, hfinal⟩ :=
    update_dataset_ok_inv wb lyr sub respv name wb' h
  have hentry1 : getPath p1 [.key "workspace", .key "datasets", .key dataset_name] =
      some (featureEntry newData lyr.id my_extent) :=
    setKeyAt_getPath wb.props [.key "workspace", .key "datasets"] dataset_name _ p1 h7
  have hsplit1 : getPath p1 [.key "workspace", .key "datasets", .key dataset_name] =
      (getPath p1 [.key "workspace", .key "datasets"]).bind
        (fun x => getPath x [.key dataset_name]) :=
    getPath_append p1 [.key "workspace", .key "datasets"] [.key dataset_name]
  have hds1entry : (JValue.obj ds1).getKey dataset_name =
      some (featureEntry newData lyr.id my_extent) := by
    rw [hsplit1, hx] at hentry1
    simpa [getPath_single] using hentry1
  refine ⟨dataset_name, old_data, newData, my_extent, ds1, hname, h6, h4,
    hfinal, hds1entry, ?_⟩
  intro hno
  have hcond : ∀ dat, (featureEntry newData lyr.id my_extent).getKey "data" =
      some dat → dat.getKey "tools" = none := by
    intro dat hdat
    have : dat = newData := by
      simpa [featureEntry, JValue.getKey, List.find?] using hdat.symm
    rw [this]
    exact hno
  have hkeep := updateRefsAll_getKey_no_tools old_data newData ds1 dataset_name
    (featureEntry newData lyr.id my_extent) hds1entry hcond
  have hsplit2 : getPath wb'.props
      [.key "workspace", .key "datasets", .key dataset_name, .key "data"] =
      (getPath wb'.props [.key "workspace", .key "datasets"]).bind
        (fun x => getPath x [.key dataset_name, .key "data"]) :=
    getPath_append wb'.props [.key "workspace", .key "datasets"]
      [.key dataset_name, .key "data"]
  rw [hsplit2, hfinal]
  simp only [Option.some_bind, getPath_key_cons, hkeep, Option.some_bind]
  simp [featureEntry, JValue.getKey, getPath, List.find?]

/-- Witness for the amended C8 at the concrete `wbRefs` run. -/
theorem claim_C8_amended_witness :
    ((update_dataset wbRefs sampleLayer 0
        (.ok (.obj [("sales_0000abc", .str "NEW")]))).2 =
      .ok (some "sales_0000abc", wbRefsRes)) ∧
    (∃ dataset_name old_data newData my_extent ds1,
      (some "sales_0000abc" : Option String) = some dataset_name ∧
      (JValue.obj [("sales_0000abc", .str "NEW")]).getKey dataset_name =
        some newData ∧
      getPath wbRefs.props [.key "workspace", .key "datasets", .key dataset_name,
        .key "data"] = some old_data ∧
      getPath wbRefsRes.props [.key "workspace", .key "datasets"] =
        some (.obj (updateRefsAll old_data newData ds1)) ∧
      (JValue.obj ds1).getKey dataset_name =
        some (featureEntry newData sampleLayer.id my_extent) ∧
      (newData.getKey "tools" = none →
        getPath wbRefsRes.props [.key "workspace", .key "datasets",
          .key dataset_name, .key "data"] = some newData)) :=
  ⟨by decide,
   claim_C8_amended.1 wbRefs sampleLayer 0 (.obj [("sales_0000abc", .str "NEW")])
     (some "sales_0000abc") wbRefsRes (by decide)⟩

/-- C10: a successful `aggregate` names its output dataset as a base name, an
underscore, and a 7-hex-digit suffix, where the base name is the portion of
`in_dataset` before its first underscore when one occurs, and `in_dataset`
with its last character removed otherwise. -/
theorem claim_C10 (wb : Workbook)
    (in_ds gb gbt st sf sft : String) (onm : Option String) (r : Nat)
    (hok : (aggregate wb in_ds gb gbt st sf sft onm r).2.isOk = true)
    (hr : r < 16 ^ 7) :
    (aggregate wb in_ds gb gbt st sf sft onm r).2.toOption.map Prod.fst =
      some (specBase in_ds ++ "_" ++ formatHex 7 r) ∧
    (formatHex 7 r).length = 7 ∧
    (∀ c ∈ (formatHex 7 r).data, isHexDigitChar c = true) := by
  refine ⟨?_, formatHex_length 7 r hr (by omega), formatHex_isHex 7 r⟩
  rw [← pySliceTo_pyFind_underscore]
  simp only [aggregate] at hok ⊢
  split at hok
  · simp [Except.isOk, Except.toBool] at hok
  · split at hok
    · simp [Except.isOk, Except.toBool] at hok
    · split at hok
      · simp [Except.isOk, Except.toBool] at hok
      · simp_all [Except.toOption]

/-- C4: a successful `new(gis, title)` returns a workbook whose props carry
the given title, exactly one page titled `Page 1` with empty model items,
cards, layout and contents, `activePage` 0, and an empty
`workspace.datasets` mapping. -/
theorem claim_C4 (g : Gis) (title : String) (r : Nat)
    (resp1 : Except PostErr JValue) (resp2 : Except PostErr Unit)
    (hok : (new g title r resp1 resp2).2.isOk = true) :
    ((new g title r resp1 resp2).2.toOption.bind
        (fun wb => wb.props.getKey "title") = some (.str title)) ∧
    ((new g title r resp1 resp2).2.toOption.bind
        (fun wb => wb.props.getKey "pages") =
      some (.arr [.obj [
        ("title", .str "Page 1"),
        ("model", .obj [("items", .arr [])]),
        ("cards", .arr []),
        ("layout", .arr []),
        ("contents", .arr [])]])) ∧
    ((new g title r resp1 resp2).2.toOption.bind
        (fun wb => wb.props.getKey "activePage") = some (.num 0)) ∧
    ((new g title r resp1 resp2).2.toOption.bind
        (fun wb => getPath wb.props [.key "workspace", .key "datasets"]) =
      some (.obj [])) := by
  simp only [new] at hok ⊢
  split at hok
  · simp [Except.isOk, Except.toBool] at hok
  · split at hok
    · split at hok
      · simp_all [Except.isOk, Except.toBool]
      · simp_all [Except.toOption, defaultProps, JValue.getKey, getPath, List.find?]
    · simp [Except.isOk, Except.toBool] at hok

/-- Witness for C4 at a concrete Portal connection. -/
theorem claim_C4_witness :
    ((new sampleGis "My WB" 3735928559
        (.ok (.obj [("itemId", .str "WSID")])) (.ok ())).2.isOk = true) ∧
    (((new sampleGis "My WB" 3735928559
        (.ok (.obj [("itemId", .str "WSID")])) (.ok ())).2.toOption.bind
        (fun wb => wb.props.getKey "title") = some (.str "My WB")) ∧
    ((new sampleGis "My WB" 3735928559
        (.ok (.obj [("itemId", .str "WSID")])) (.ok ())).2.toOption.bind
        (fun wb => wb.props.getKey "pages") =
      some (.arr [.obj [
        ("title", .str "Page 1"),
        ("model", .obj [("items", .arr [])]),
        ("cards", .arr []),
        ("layout", .arr []),
        ("contents", .arr [])]])) ∧
    ((new sampleGis "My WB" 3735928559
        (.ok (.obj [("itemId", .str "WSID")])) (.ok ())).2.toOption.bind
        (fun wb => wb.props.getKey "activePage") = some (.num 0)) ∧
    ((new sampleGis "My WB" 3735928559
        (.ok (.obj [("itemId", .str "WSID")])) (.ok ())).2.toOption.bind
        (fun wb => getPath wb.props [.key "workspace", .key "datasets"]) =
      some (.obj []))) :=
  ⟨by decide,
   claim_C4 sampleGis "My WB" 3735928559
     (.ok (.obj [("itemId", .str "WSID")])) (.ok ()) (by decide)⟩

/-- C3: `save` issues exactly one POST, to the item update endpoint for this
workbook's workspace ID, whose `text` field is the JSON serialization of the
current props with the `id`, `owner`, `name` and `url` keys set to the stored
workspace ID, current username, workbook ID and workspace URL, and whose
`title` field is the stored title. -/
theorem claim_C3 (wb : Workbook) (fs : List (String × JValue))
    (resp : Except PostErr Unit) (hprops : wb.props = .obj fs) :
    (save wb resp).1 = [Request.post
      (pyLower wb.gis.url ++ "/sharing/rest/content/users/" ++ wb.gis.username ++
        "/items/" ++ wb.workspaceID ++ "/update")
      [("f", "json"),
       ("title", wb.title),
       ("text", JValue.dumps ((((wb.props.setKey "id" (.str wb.workspaceID)).setKey
           "owner" (.str wb.gis.username)).setKey "name" (.str wb.workbookID)).setKey
           "url" (.str wb.workspaceURL)))]] ∧
    strEndsWith ("/items/" ++ wb.workspaceID ++ "/update")
      (pyLower wb.gis.url ++ "/sharing/rest/content/users/" ++ wb.gis.username ++
        "/items/" ++ wb.workspaceID ++ "/update") := by
  constructor
  · cases resp <;>
      simp [save, JValue.trySetKey, JValue.setKey, hprops]
  · simp only [strEndsWith, String.data_append, List.append_assoc]
    exact (List.suffix_append _ _).trans
      ((List.suffix_append _ _).trans (List.suffix_append _ _))

/-- Witness for C3 at a concrete workbook. -/
theorem claim_C3_witness :
    (wbA.props = .obj [
      ("pages", .arr [.obj [
        ("model", .obj [("items", .arr [])]),
        ("cards", .arr []),
        ("layout", .arr []),
        ("contents", .arr [])]]),
      ("workspace", .obj [("datasets", .obj [
        ("sales_0000abc", .obj [
          ("data", .str "D1"),
          ("extent", .obj [("xmin", .num 0)])])])])]) ∧
    ((save wbA (.ok ())).1 = [Request.post
      (pyLower wbA.gis.url ++ "/sharing/rest/content/users/" ++ wbA.gis.username ++
        "/items/" ++ wbA.workspaceID ++ "/update")
      [("f", "json"),
       ("title", wbA.title),
       ("text", JValue.dumps ((((wbA.props.setKey "id" (.str wbA.workspaceID)).setKey
           "owner" (.str wbA.gis.username)).setKey "name" (.str wbA.workbookID)).setKey
           "url" (.str wbA.workspaceURL)))]] ∧
    strEndsWith ("/items/" ++ wbA.workspaceID ++ "/update")
      (pyLower wbA.gis.url ++ "/sharing/rest/content/users/" ++ wbA.gis.username ++
        "/items/" ++ wbA.workspaceID ++ "/update")) :=
  ⟨rfl, claim_C3 wbA _ (.ok ()) rfl⟩

/-- C9: `add_map` on a dataset name that is not a key of
`props['workspace']['datasets']` raises an exception (a KeyError) and leaves
props completely unchanged. -/
theorem claim_C9 (wb : Workbook) (fs wfs ds : List (String × JValue))
    (dataset : String)
    (hprops : wb.props = .obj fs)
    (hws : fs.find? (fun p => p.1 = "workspace") = some ("workspace", .obj wfs))
    (hds : wfs.find? (fun p => p.1 = "datasets") = some ("datasets", .obj ds))
    (hnot : dataset ∉ ds.map (·.1)) :
    (add_map wb dataset).2 = .error (.lookup, wb) := by
  have hnone : (JValue.obj ds).getKey dataset = none :=
    getKey_none_of_not_mem ds dataset hnot
  simp only [JValue.getKey] at hnone
  simp [add_map, getPath, hprops, hws, hds, hnone]

/-- Witness for C9 at a concrete workbook and missing dataset name. -/
theorem claim_C9_witness :
    (wbA.props = .obj [
      ("pages", .arr [.obj [
        ("model", .obj [("items", .arr [])]),
        ("cards", .arr []),
        ("layout", .arr []),
        ("contents", .arr [])]]),
      ("workspace", .obj [("datasets", .obj [
        ("sales_0000abc", .obj [
          ("data", .str "D1"),
          ("extent", .obj [("xmin", .num 0)])])])])]) ∧
    (add_map wbA "nope").2 = .error (.lookup, wbA) :=
  ⟨rfl, claim_C9 wbA
    [("pages", .arr [.obj [
       ("model", .obj [("items", .arr [])]),
       ("cards", .arr []),
       ("layout", .arr []),
       ("contents", .arr [])]]),
     ("workspace", .obj [("datasets", .obj [
       ("sales_0000abc", .obj [
         ("data", .str "D1"),
         ("extent", .obj [("xmin", .num 0)])])])])]
    [("datasets", .obj [
       ("sales_0000abc", .obj [
         ("data", .str "D1"),
         ("extent", .obj [("xmin", .num 0)])])])]
    [("sales_0000abc", .obj [
       ("data", .str "D1"),
       ("extent", .obj [("xmin", .num 0)])])]
    "nope" rfl (by decide) (by decide) (by decide)⟩

/-- Witness for C10 at a concrete workbook and input. -/
theorem claim_C10_witness :
    ((aggregate wbA "sales_0000abc" "region" "esriFieldTypeString" "sum" "Pop"
        "esriFieldTypeInteger" none 15).2.isOk = true ∧ 15 < 16 ^ 7) ∧
    ((aggregate wbA "sales_0000abc" "region" "esriFieldTypeString" "sum" "Pop"
        "esriFieldTypeInteger" none 15).2.toOption.map Prod.fst =
      some (specBase "sales_0000abc" ++ "_" ++ formatHex 7 15) ∧
    (formatHex 7 15).length = 7 ∧
    (∀ c ∈ (formatHex 7 15).data, isHexDigitChar c = true)) :=
  ⟨⟨by decide, by decide⟩,
   claim_C10 wbA "sales_0000abc" "region" "esriFieldTypeString" "sum" "Pop"
     "esriFieldTypeInteger" none 15 (by decide) (by decide)⟩

end InsightsWB
